import Mathlib

/-!
Verification development for the `torch_thread_test` repository: a shallow
embedding of the Boulder-Dash-style game simulator (`src/rnd/stonesngems_base.cpp`),
the bounded blocking queue (`src/queue.h`) and the PHS* best-first searcher
(`src/search.cpp`), together with theorems settling the specification claims.

The files `definitions.h` and `util.h` of the repository are not part of the
sources; the element catalogue, the `Board` structure, and `parse_board_str`
are modelled from the specification where needed (each such definition says so
in its doc comment).  Machine integers are modelled as `Nat`/`Int` with
explicit `% 2^w` at the points where the C++ code can overflow.
-/

namespace StonesNGems

/-! ## Directions and special agent positions (spec §4.1, §6) -/

def kNoop : Nat := 0
def kUp : Nat := 1
def kRight : Nat := 2
def kDown : Nat := 3
def kLeft : Nat := 4
def kUpRight : Nat := 5
def kDownRight : Nat := 6
def kDownLeft : Nat := 7
def kUpLeft : Nat := 8
def kNumDirections : Nat := 9
def kNumActions : Nat := 5

def kAgentPosExit : Int := -1
def kAgentPosDie : Int := -2

/-! ## Hidden cell type codes.

Modelled from the spec: `definitions.h` (which holds the `HiddenCellType`
enumeration) is not under `src/`.  The spec's element catalogue (§3) lists the
elements; the numeric codes are chosen so that the default board string
`"2|2|-1|0|0|1|1|8"` of `stonesngems_base.h` denotes `[agent, empty, empty,
exit-open]` (the agent must be present for `agent_idx` to be set). -/

def kNullElementCode : Int := -1
def kElAgent : Int := 0
def kElEmpty : Int := 1
def kElDirt : Int := 2
def kElStone : Int := 3
def kElStoneFalling : Int := 4
def kElDiamond : Int := 5
def kElDiamondFalling : Int := 6
def kElExitClosed : Int := 7
def kElExitOpen : Int := 8
def kElAgentInExit : Int := 9
def kElNut : Int := 10
def kElNutFalling : Int := 11
def kElBomb : Int := 12
def kElBombFalling : Int := 13
def kElWallBrick : Int := 14
def kElWallSteel : Int := 15
def kElWallMagicDormant : Int := 16
def kElWallMagicOn : Int := 17
def kElWallMagicExpired : Int := 18
def kElBlob : Int := 19
def kElExplosionDiamond : Int := 20
def kElExplosionBoulder : Int := 21
def kElExplosionEmpty : Int := 22
def kElButterflyUp : Int := 23
def kElButterflyLeft : Int := 24
def kElButterflyDown : Int := 25
def kElButterflyRight : Int := 26
def kElFireflyUp : Int := 27
def kElFireflyLeft : Int := 28
def kElFireflyDown : Int := 29
def kElFireflyRight : Int := 30
def kElOrangeUp : Int := 31
def kElOrangeLeft : Int := 32
def kElOrangeDown : Int := 33
def kElOrangeRight : Int := 34
def kElKeyRed : Int := 35
def kElKeyBlue : Int := 36
def kElKeyGreen : Int := 37
def kElKeyYellow : Int := 38
def kElGateRedClosed : Int := 39
def kElGateBlueClosed : Int := 40
def kElGateGreenClosed : Int := 41
def kElGateYellowClosed : Int := 42
def kElGateRedOpen : Int := 43
def kElGateBlueOpen : Int := 44
def kElGateGreenOpen : Int := 45
def kElGateYellowOpen : Int := 46
def kNumHiddenCellType : Int := 47

/-! ## Element properties (spec §3: bitmask over
`{rounded, can_explode, consumable, traversable, pushable}`).

Modelled from the spec: the property table lives in the missing
`definitions.h`; the assignment below follows the spec's behavioural
descriptions (stones/diamonds/nuts are rounded and trackable, the agent and
the creatures can explode, soft elements are consumable, stones/nuts/bombs are
pushable, empty/dirt/diamonds/keys are traversable). -/

def kRounded : Nat := 1
def kCanExplode : Nat := 2
def kConsumable : Nat := 4
def kPushable : Nat := 8
def kTraversable : Nat := 16

def elementProperties (code : Int) : Nat :=
  (if code = kElStone ∨ code = kElStoneFalling ∨ code = kElDiamond ∨
      code = kElDiamondFalling ∨ code = kElNut ∨ code = kElNutFalling ∨
      code = kElWallBrick then kRounded else 0) +
  (if code = kElAgent ∨ code = kElBomb ∨ code = kElBombFalling ∨
      code = kElBlob ∨
      code = kElButterflyUp ∨ code = kElButterflyLeft ∨
      code = kElButterflyDown ∨ code = kElButterflyRight ∨
      code = kElFireflyUp ∨ code = kElFireflyLeft ∨
      code = kElFireflyDown ∨ code = kElFireflyRight ∨
      code = kElOrangeUp ∨ code = kElOrangeLeft ∨
      code = kElOrangeDown ∨ code = kElOrangeRight then kCanExplode else 0) +
  (if code = kElAgent ∨ code = kElDirt ∨ code = kElStone ∨
      code = kElStoneFalling ∨ code = kElDiamond ∨ code = kElDiamondFalling ∨
      code = kElNut ∨ code = kElNutFalling ∨ code = kElBomb ∨
      code = kElBombFalling ∨ code = kElBlob ∨ code = kElKeyRed ∨
      code = kElKeyBlue ∨ code = kElKeyGreen ∨ code = kElKeyYellow
      then kConsumable else 0) +
  (if code = kElStone ∨ code = kElNut ∨ code = kElBomb then kPushable else 0) +
  (if code = kElEmpty ∨ code = kElDirt ∨ code = kElDiamond ∨
      code = kElDiamondFalling ∨ code = kElKeyRed ∨ code = kElKeyBlue ∨
      code = kElKeyGreen ∨ code = kElKeyYellow then kTraversable else 0)

/-! ## Element classification predicates and dispatch tables.

Modelled from the spec: these are the `IsButterfly`/`kButterflyToDirection`/…
helpers of the missing `definitions.h`, realised as dense tables over the cell
codes as §9 of the spec describes. -/

def IsButterfly (code : Int) : Bool :=
  code = kElButterflyUp ∨ code = kElButterflyLeft ∨
  code = kElButterflyDown ∨ code = kElButterflyRight

def IsFirefly (code : Int) : Bool :=
  code = kElFireflyUp ∨ code = kElFireflyLeft ∨
  code = kElFireflyDown ∨ code = kElFireflyRight

def IsOrange (code : Int) : Bool :=
  code = kElOrangeUp ∨ code = kElOrangeLeft ∨
  code = kElOrangeDown ∨ code = kElOrangeRight

def IsMagicWall (code : Int) : Bool :=
  code = kElWallMagicDormant ∨ code = kElWallMagicOn ∨ code = kElWallMagicExpired

def IsExplosion (code : Int) : Bool :=
  code = kElExplosionDiamond ∨ code = kElExplosionBoulder ∨ code = kElExplosionEmpty

def IsKey (code : Int) : Bool :=
  code = kElKeyRed ∨ code = kElKeyBlue ∨ code = kElKeyGreen ∨ code = kElKeyYellow

def IsOpenGate (code : Int) : Bool :=
  code = kElGateRedOpen ∨ code = kElGateBlueOpen ∨
  code = kElGateGreenOpen ∨ code = kElGateYellowOpen

def butterflyToDirection (code : Int) : Nat :=
  if code = kElButterflyUp then kUp
  else if code = kElButterflyLeft then kLeft
  else if code = kElButterflyDown then kDown
  else kRight

def fireflyToDirection (code : Int) : Nat :=
  if code = kElFireflyUp then kUp
  else if code = kElFireflyLeft then kLeft
  else if code = kElFireflyDown then kDown
  else kRight

def orangeToDirection (code : Int) : Nat :=
  if code = kElOrangeUp then kUp
  else if code = kElOrangeLeft then kLeft
  else if code = kElOrangeDown then kDown
  else kRight

def directionToButterfly (dir : Nat) : Int :=
  if dir = kUp then kElButterflyUp
  else if dir = kLeft then kElButterflyLeft
  else if dir = kDown then kElButterflyDown
  else kElButterflyRight

def directionToFirefly (dir : Nat) : Int :=
  if dir = kUp then kElFireflyUp
  else if dir = kLeft then kElFireflyLeft
  else if dir = kDown then kElFireflyDown
  else kElFireflyRight

def directionToOrange (dir : Nat) : Int :=
  if dir = kUp then kElOrangeUp
  else if dir = kLeft then kElOrangeLeft
  else if dir = kDown then kElOrangeDown
  else kElOrangeRight

/-- Rotate-left direction table (length-9 table, spec §4.1). -/
def kRotateLeftTable (dir : Nat) : Nat :=
  if dir = kUp then kLeft
  else if dir = kLeft then kDown
  else if dir = kDown then kRight
  else if dir = kRight then kUp
  else dir

/-- Rotate-right direction table (length-9 table, spec §4.1). -/
def kRotateRightTable (dir : Nat) : Nat :=
  if dir = kUp then kRight
  else if dir = kRight then kDown
  else if dir = kDown then kLeft
  else if dir = kLeft then kUp
  else dir

/-- Modelled from the spec: `kElementToExplosion` of the missing
`definitions.h` — butterflies explode into diamond explosions, everything else
into empty explosions; elements with no entry map to `kElExplosionEmpty`
(mirrors the `find`+default lookup used by the source). -/
def elementToExplosion (code : Int) : Int :=
  if IsButterfly code then kElExplosionDiamond else kElExplosionEmpty

/-- Modelled from the spec: `kExplosionToElement` — the terminal explosion
stage restores a base element (diamond, stone, or empty). -/
def explosionToElement (code : Int) : Int :=
  if code = kElExplosionDiamond then kElDiamond
  else if code = kElExplosionBoulder then kElStone
  else kElEmpty

/-- Modelled from the spec: `kMagicWallConversion` — stones convert to
diamonds and diamonds to stones while passing a magic wall (spec §4.1). -/
def magicWallConversion (code : Int) : Int :=
  if code = kElStoneFalling then kElDiamondFalling
  else if code = kElDiamondFalling then kElStoneFalling
  else code

/-- Modelled from the spec: `kElToFalling` for the pushable elements. -/
def elToFalling (code : Int) : Int :=
  if code = kElStone then kElStoneFalling
  else if code = kElNut then kElNutFalling
  else if code = kElBomb then kElBombFalling
  else code

/-- Modelled from the spec: `kKeyToGate` (closed gate of the key's colour). -/
def keyToGate (code : Int) : Int :=
  if code = kElKeyRed then kElGateRedClosed
  else if code = kElKeyBlue then kElGateBlueClosed
  else if code = kElKeyGreen then kElGateGreenClosed
  else kElGateYellowClosed

/-- Modelled from the spec: `kGateOpenMap` (open variant of a closed gate). -/
def gateOpenMap (code : Int) : Int :=
  if code = kElGateRedClosed then kElGateRedOpen
  else if code = kElGateBlueClosed then kElGateBlueOpen
  else if code = kElGateGreenClosed then kElGateGreenOpen
  else if code = kElGateYellowClosed then kElGateYellowOpen
  else code

/-- Modelled from the spec: `kPointMap` point value of a collected diamond. -/
def pointMap (code : Int) : Nat :=
  if code = kElDiamond ∨ code = kElDiamondFalling then 10 else 0

/-! ## Reward-signal bits (spec §6).

Modelled from the spec: the exact bit values of the `RewardCodes` enumeration
live in the missing `definitions.h`; the bits below are distinct, which is all
the source relies on (the signal is a `u64` OR-accumulator). -/

def kRewardCollectDiamond : Nat := 1
def kRewardCollectKey : Nat := 2
def kRewardWalkThroughGate : Nat := 4
def kRewardWalkThroughExit : Nat := 8
def kRewardCollectKeyRed : Nat := 16
def kRewardCollectKeyBlue : Nat := 32
def kRewardCollectKeyGreen : Nat := 64
def kRewardCollectKeyYellow : Nat := 128
def kRewardWalkThroughGateRed : Nat := 256
def kRewardWalkThroughGateBlue : Nat := 512
def kRewardWalkThroughGateGreen : Nat := 1024
def kRewardWalkThroughGateYellow : Nat := 2048

/-- Modelled from the spec: `kKeyToSignal`. -/
def keyToSignal (code : Int) : Nat :=
  if code = kElKeyRed then kRewardCollectKeyRed
  else if code = kElKeyBlue then kRewardCollectKeyBlue
  else if code = kElKeyGreen then kRewardCollectKeyGreen
  else kRewardCollectKeyYellow

/-- Modelled from the spec: `kGateToSignal`. -/
def gateToSignal (code : Int) : Nat :=
  if code = kElGateRedOpen then kRewardWalkThroughGateRed
  else if code = kElGateBlueOpen then kRewardWalkThroughGateBlue
  else if code = kElGateGreenOpen then kRewardWalkThroughGateGreen
  else kRewardWalkThroughGateYellow

/-! ## Portable RNG (`stonesngems_base.cpp` lines 27–42) -/

/-- `splitmix64` of `stonesngems_base.cpp`; `uint64_t` arithmetic is modelled
with explicit `% 2^64` where additions and multiplications can overflow. -/
def splitmix64 (seed : Nat) : Nat :=
  let r := (seed + 0x9E3779B97f4A7C15) % 2 ^ 64
  let r := ((r ^^^ (r >>> 30)) * 0xBF58476D1CE4E5B9) % 2 ^ 64
  let r := ((r ^^^ (r >>> 27)) * 0x94D049BB133111EB) % 2 ^ 64
  r ^^^ (r >>> 31)

/-- `xorshift64` of `stonesngems_base.cpp`; returns the new RNG state (the
source writes it back through the reference and returns the same value). -/
def xorshift64 (s : Nat) : Nat :=
  let x := (s ^^^ (s <<< 13)) % 2 ^ 64
  let x := x ^^^ (x >>> 7)
  (x ^^^ (x <<< 17)) % 2 ^ 64

/-! ## List access helpers.

C++ `std::vector` subscripting is undefined behaviour out of range; the model
totalises it (reads return a default, writes out of range are dropped).  All
executions evaluated below only access valid indices. -/

def lgetD {α : Type} (l : List α) (i : Int) (d : α) : α :=
  if i < 0 then d else l.getD i.toNat d

def lset {α : Type} (l : List α) (i : Int) (v : α) : List α :=
  if i < 0 then l else l.set i.toNat v

/-! ## Data model (spec §3; `stonesngems_base.h` lines 36–96) -/

/-- `SharedStateInfo` of `stonesngems_base.h` (the fields the core reads; the
Zobrist table `zrbht` and the in-bounds tables are kept outside the structure:
the table entries are sampled by `std::mt19937` — library code outside
`src/` — so `zrbht` is passed to the operations as an abstract function, and
the in-bounds tables are recomputed from `rows`/`cols` exactly as `reset`
builds them). -/
structure SharedStateInfo where
  obs_show_ids : Bool
  magic_wall_steps : Nat
  blob_chance : Nat
  blob_max_size : Nat
  blob_max_percentage : ℚ
  rng_seed : Nat
  gravity : Bool
  deriving DecidableEq, Repr

/-- The `SharedStateInfo` constructor (`stonesngems_base.h` lines 37–46):
`blob_max_size` is initialised to `0`; `magic_wall_steps` is a `uint16_t` and
`blob_chance` a `uint8_t`, so the `int` parameters are truncated. -/
def mkSharedStateInfo (obs_show_ids : Bool) (magic_wall_steps blob_chance : Nat)
    (blob_max_percentage : ℚ) (rng_seed : Nat) (gravity : Bool) : SharedStateInfo :=
  { obs_show_ids := obs_show_ids
    magic_wall_steps := magic_wall_steps % 2 ^ 16
    blob_chance := blob_chance % 2 ^ 8
    blob_max_size := 0
    blob_max_percentage := blob_max_percentage
    rng_seed := rng_seed
    gravity := gravity }

/-- `LocalState` of `stonesngems_base.h`.  The two `unordered_map`s are
modelled as association lists with map semantics (insert overwrites an
existing key).  Field widths: `magic_wall_steps`, `blob_size`, `id_state` are
`uint16_t`; `gems_collected`, `current_reward` are `uint8_t`; `blob_swap` is
`int8_t`; `reward_signal`, `random_state` are `uint64_t`. -/
structure LocalState where
  magic_wall_steps : Nat
  blob_size : Nat
  blob_swap : Int
  gems_collected : Nat
  current_reward : Nat
  reward_signal : Nat
  magic_active : Bool
  blob_enclosed : Bool
  steps_remaining : Int
  random_state : Nat
  id_state : Nat
  index_id_map : List (Int × Nat)
  id_index_map : List (Nat × Int)
  deriving DecidableEq, Repr

/-- The `LocalState` default constructor (`stonesngems_base.h` lines 63–74). -/
def initLocalState : LocalState :=
  { magic_wall_steps := 0
    blob_size := 0
    blob_swap := -1
    gems_collected := 0
    current_reward := 0
    reward_signal := 0
    magic_active := false
    blob_enclosed := true
    steps_remaining := -1
    random_state := 1
    id_state := 0
    index_id_map := []
    id_index_map := [] }

/-- `LocalState::operator==` (`stonesngems_base.h` lines 76–80): it compares
only `magic_wall_steps`, `blob_size`, `gems_collected`, `magic_active` and
`blob_enclosed`. -/
def localStateEq (a b : LocalState) : Bool :=
  a.magic_wall_steps == b.magic_wall_steps && a.blob_size == b.blob_size &&
  a.gems_collected == b.gems_collected && a.magic_active == b.magic_active &&
  a.blob_enclosed == b.blob_enclosed

/-- Modelled from the spec: equality of *every* `LocalState` field (including
`steps_remaining`, `random_state`, `reward_signal` and the id maps), the
comparison claim C2 describes.  Stated field-wise for comparison with
`localStateEq`. -/
def localStateEqFull (a b : LocalState) : Bool :=
  a.magic_wall_steps == b.magic_wall_steps && a.blob_size == b.blob_size &&
  a.blob_swap == b.blob_swap && a.gems_collected == b.gems_collected &&
  a.current_reward == b.current_reward && a.reward_signal == b.reward_signal &&
  a.magic_active == b.magic_active && a.blob_enclosed == b.blob_enclosed &&
  a.steps_remaining == b.steps_remaining && a.random_state == b.random_state &&
  a.id_state == b.id_state && a.index_id_map == b.index_id_map &&
  a.id_index_map == b.id_index_map

/-- `Board` (spec §3; the structure itself lives in the missing
`definitions.h`): `rows`, `cols`, `gems_required`, `max_steps`, the flat grid
of cell-type codes, the parallel `has_updated` array, `agent_pos`,
`agent_idx`, and the Zobrist hash. -/
structure Board where
  rows : Nat
  cols : Nat
  max_steps : Int
  gems_required : Nat
  grid : List Int
  has_updated : List Bool
  agent_pos : Int
  agent_idx : Int
  zorb_hash : Nat
  deriving DecidableEq, Repr

/-- `board.item(i)` — grid read at a flat index. -/
def Board.item (b : Board) (i : Int) : Int :=
  lgetD b.grid i kNullElementCode

/-- Grid write at a flat index. -/
def Board.setCode (b : Board) (i : Int) (v : Int) : Board :=
  { b with grid := lset b.grid i v }

/-- `board.find_all(code)` — all flat indices currently holding `code`. -/
def Board.findAll (b : Board) (code : Int) : List Int :=
  ((List.range (b.rows * b.cols)).filter
    (fun i => b.item (Int.ofNat i) == code)).map Int.ofNat

/-- Modelled from the spec: `Board::operator==` lives in the missing
`definitions.h`; boards are value types, so equality compares all fields. -/
def boardEq (a b : Board) : Bool :=
  a.rows == b.rows && a.cols == b.cols && a.max_steps == b.max_steps &&
  a.gems_required == b.gems_required && a.grid == b.grid &&
  a.has_updated == b.has_updated && a.agent_pos == b.agent_pos &&
  a.agent_idx == b.agent_idx && a.zorb_hash == b.zorb_hash

/-- `RNDGameState`: board and local state by value, shared configuration
(`shared_state_ptr`) by reference — modelled by embedding the shared record
(immutable after `reset`). -/
structure GameState where
  shared : SharedStateInfo
  board : Board
  local_state : LocalState
  deriving DecidableEq, Repr

/-- `RNDGameState::operator==` (`stonesngems_base.cpp` lines 15–17):
`local_state == other.local_state && board == other.board`. -/
def gameStateEq (a b : GameState) : Bool :=
  localStateEq a.local_state b.local_state && boardEq a.board b.board

/-! ## Index arithmetic and in-bounds checks
(`stonesngems_base.cpp` lines 316–367, tables built in `reset`, lines 71–90) -/

/-- `RNDGameState::IndexFromAction`. -/
def IndexFromAction (cols : Nat) (index : Int) (action : Nat) : Int :=
  if action = kNoop then index
  else if action = kUp then index - cols
  else if action = kRight then index + 1
  else if action = kDown then index + cols
  else if action = kLeft then index - 1
  else if action = kUpRight then index - cols + 1
  else if action = kDownRight then index + cols + 1
  else if action = kUpLeft then index - cols - 1
  else if action = kDownLeft then index + cols - 1
  else index

/-- `RNDGameState::BoundsIndexFromAction` (offsets on the padded
`(cols+2)`-wide frame). -/
def BoundsIndexFromAction (cols : Nat) (index : Int) (action : Nat) : Int :=
  if action = kNoop then index
  else if action = kUp then index - (cols + 2)
  else if action = kRight then index + 1
  else if action = kDown then index + (cols + 2)
  else if action = kLeft then index - 1
  else if action = kUpRight then index - (cols + 2) + 1
  else if action = kDownRight then index + (cols + 2) + 1
  else if action = kUpLeft then index - (cols + 2) - 1
  else if action = kDownLeft then index + (cols + 2) - 1
  else index

/-- The `in_bounds_board` mask built by `reset` (`stonesngems_base.cpp` lines
72–83): a `(rows+2)×(cols+2)` frame, `true` everywhere except the outer
border.  Written as the net effect of the border-clearing loops. -/
def mkInBoundsBoard (rows cols : Nat) : List Bool :=
  (List.range ((rows + 2) * (cols + 2))).map (fun i =>
    let r := i / (cols + 2)
    let c := i % (cols + 2)
    decide (0 < r ∧ r < rows + 1 ∧ 0 < c ∧ c < cols + 1))

/-- The `board_to_inbounds` translation table built by `reset`
(`stonesngems_base.cpp` lines 84–90): board index `r*cols+c` maps to padded
index `(cols+2)*(r+1)+c+1`. -/
def mkBoardToInbounds (rows cols : Nat) : List Int :=
  (List.range rows).flatMap (fun r =>
    (List.range cols).map (fun c => ((cols + 2) * (r + 1) + c + 1 : Int)))

/-- `RNDGameState::InBounds` (`stonesngems_base.cpp` lines 365–367). -/
def InBounds (g : GameState) (index : Int) (action : Nat) : Bool :=
  lgetD (mkInBoundsBoard g.board.rows g.board.cols)
    (BoundsIndexFromAction g.board.cols
      (lgetD (mkBoardToInbounds g.board.rows g.board.cols) index 0) action)
    false

/-- `RNDGameState::GetItem` — the element (cell code) at `index` moved by
`action` (`kCellTypeToElement[item+1]` in the source; elements are modelled by
their cell code). -/
def GetItem (g : GameState) (index : Int) (action : Nat := kNoop) : Int :=
  g.board.item (IndexFromAction g.board.cols index action)

/-- `RNDGameState::IsType` (`stonesngems_base.cpp` lines 369–372). -/
def IsType (g : GameState) (index : Int) (element : Int)
    (action : Nat := kNoop) : Bool :=
  InBounds g index action && (GetItem g index action == element)

/-- `RNDGameState::HasProperty` (`stonesngems_base.cpp` lines 374–377). -/
def HasProperty (g : GameState) (index : Int) (property : Nat)
    (action : Nat := kNoop) : Bool :=
  InBounds g index action &&
    decide (0 < Nat.land (elementProperties (GetItem g index action)) property)

/-- `RNDGameState::IsTypeAdjacent` (`stonesngems_base.cpp` lines 456–459). -/
def IsTypeAdjacent (g : GameState) (index : Int) (element : Int) : Bool :=
  IsType g index element kUp || IsType g index element kLeft ||
  IsType g index element kDown || IsType g index element kRight

/-! ## Trackable item id maps (`stonesngems_base.cpp` lines 379–422).
The `unordered_map`s are modelled as association lists with map semantics. -/

def mapFind? {κ ν : Type} [BEq κ] (m : List (κ × ν)) (k : κ) : Option ν :=
  (m.find? (fun kv => kv.1 == k)).map Prod.snd

def mapErase {κ ν : Type} [BEq κ] (m : List (κ × ν)) (k : κ) : List (κ × ν) :=
  m.filter (fun kv => !(kv.1 == k))

def mapInsert {κ ν : Type} [BEq κ] (m : List (κ × ν)) (k : κ) (v : ν) :
    List (κ × ν) :=
  mapErase m k ++ [(k, v)]

/-- `RNDGameState::UpdateIDIndex` — the item moved from `index_old` to
`index_new`, move its id with it. -/
def UpdateIDIndex (ls : LocalState) (index_old index_new : Int) : LocalState :=
  match mapFind? ls.index_id_map index_old with
  | none => ls
  | some id =>
      { ls with
        index_id_map := mapInsert (mapErase ls.index_id_map index_old) index_new id
        id_index_map := mapInsert ls.id_index_map id index_new }

/-- `RNDGameState::UpdateIndexID` — the item at `index` changed identity,
issue it a fresh id (`++id_state`, a `uint16_t`). -/
def UpdateIndexID (ls : LocalState) (index : Int) : LocalState :=
  match mapFind? ls.index_id_map index with
  | none => ls
  | some id_old =>
      let id_new := (ls.id_state + 1) % 2 ^ 16
      { ls with
        id_state := id_new
        id_index_map := mapInsert (mapErase ls.id_index_map id_old) id_new index
        index_id_map := mapInsert ls.index_id_map index id_new }

/-- `RNDGameState::AddIndexID` — register an id for the trackable element (if
any) sitting at `index`. -/
def AddIndexID (b : Board) (ls : LocalState) (index : Int) : LocalState :=
  if b.item index = kElStone ∨ b.item index = kElStoneFalling ∨
     b.item index = kElDiamond ∨ b.item index = kElDiamondFalling ∨
     b.item index = kElNut ∨ b.item index = kElNutFalling then
    let id := (ls.id_state + 1) % 2 ^ 16
    { ls with
      id_state := id
      id_index_map := mapInsert ls.id_index_map id index
      index_id_map := mapInsert ls.index_id_map index id }
  else ls

/-- `RNDGameState::RemoveIndexID`. -/
def RemoveIndexID (ls : LocalState) (index : Int) : LocalState :=
  match mapFind? ls.index_id_map index with
  | none => ls
  | some id =>
      { ls with
        id_index_map := mapErase ls.id_index_map id
        index_id_map := mapErase ls.index_id_map index }

/-! ## Board mutations (`stonesngems_base.cpp` lines 424–449).
These two functions perform *every* grid write of the simulator; each write
XORs the old cell's Zobrist entry out of `zorb_hash` and the new one in. -/

/-- `RNDGameState::MoveItem`: move the item at `index` one step along
`action`, leaving `kElEmpty` behind; only the destination cell is marked in
`has_updated`.  `zrbht` is the Zobrist table (`shared_state_ptr->zrbht`). -/
def MoveItem (zrbht : Int → Nat) (g : GameState) (index : Int) (action : Nat) :
    GameState :=
  let N : Int := g.board.cols * g.board.rows
  let b := g.board
  let new_index := IndexFromAction b.cols index action
  let b := { b with zorb_hash := b.zorb_hash ^^^ zrbht (b.item new_index * N + new_index) }
  let b := b.setCode new_index (b.item index)
  let b := { b with zorb_hash := b.zorb_hash ^^^ zrbht (b.item new_index * N + new_index) }
  let b := { b with zorb_hash := b.zorb_hash ^^^ zrbht (b.item index * N + index) }
  let b := b.setCode index kElEmpty
  let b := { b with zorb_hash := b.zorb_hash ^^^ zrbht (kElEmpty * N + index) }
  let b := { b with has_updated := lset b.has_updated new_index true }
  { g with board := b, local_state := UpdateIDIndex g.local_state index new_index }

/-- `RNDGameState::SetItem`: write `element` at `index` moved by `action`
(the `id` argument is ignored by the source) and mark the cell. -/
def SetItem (zrbht : Int → Nat) (g : GameState) (index : Int) (element : Int)
    (_id : Int) (action : Nat := kNoop) : GameState :=
  let N : Int := g.board.cols * g.board.rows
  let b := g.board
  let new_index := IndexFromAction b.cols index action
  let b := { b with zorb_hash := b.zorb_hash ^^^ zrbht (b.item new_index * N + new_index) }
  let b := b.setCode new_index element
  let b := { b with zorb_hash := b.zorb_hash ^^^ zrbht (element * N + new_index) }
  let b := { b with has_updated := lset b.has_updated new_index true }
  { g with board := b }

/-- Update both `agent_pos` and `agent_idx` (the paired assignments of
`UpdateAgent` and `Push`). -/
def setAgentIdx (g : GameState) (idx : Int) : GameState :=
  { g with board := { g.board with agent_pos := idx, agent_idx := idx } }

/-! ## Rolling, pushing, magic walls, explosions
(`stonesngems_base.cpp` lines 463–539) -/

/-- `RNDGameState::CanRollLeft`. -/
def CanRollLeft (g : GameState) (index : Int) : Bool :=
  HasProperty g index kRounded kDown &&
  IsType g index kElEmpty kLeft && IsType g index kElEmpty kDownLeft

/-- `RNDGameState::CanRollRight`. -/
def CanRollRight (g : GameState) (index : Int) : Bool :=
  HasProperty g index kRounded kDown &&
  IsType g index kElEmpty kRight && IsType g index kElEmpty kDownRight

/-- `RNDGameState::RollLeft`. -/
def RollLeft (zrbht : Int → Nat) (g : GameState) (index : Int) (element : Int) :
    GameState :=
  MoveItem zrbht (SetItem zrbht g index element (-1)) index kLeft

/-- `RNDGameState::RollRight`. -/
def RollRight (zrbht : Int → Nat) (g : GameState) (index : Int) (element : Int) :
    GameState :=
  MoveItem zrbht (SetItem zrbht g index element (-1)) index kRight

/-- `RNDGameState::Push` (`stonesngems_base.cpp` lines 483–498): the agent at
`index` pushes the element one step along the horizontal `action` when the
cell past it is empty. -/
def PushEl (zrbht : Int → Nat) (g : GameState) (index : Int)
    (stationary falling : Int) (action : Nat) : GameState :=
  let cols := g.board.cols
  let new_index := IndexFromAction cols index action
  if IsType g new_index kElEmpty action then
    let next_index := IndexFromAction cols new_index action
    let is_empty := IsType g next_index kElEmpty kDown
    let g := MoveItem zrbht g new_index action
    let g := SetItem zrbht g next_index (if is_empty then falling else stationary) (-1)
    let g := MoveItem zrbht g index action
    setAgentIdx g (IndexFromAction cols index action)
  else g

/-- `RNDGameState::MoveThroughMagic` (`stonesngems_base.cpp` lines 500–514). -/
def MoveThroughMagic (zrbht : Int → Nat) (g : GameState) (index : Int)
    (element : Int) : GameState :=
  if g.local_state.magic_wall_steps = 0 then g
  else
    let g := { g with local_state := { g.local_state with magic_active := true } }
    let cols := g.board.cols
    let index_wall := IndexFromAction cols index kDown
    let index_under_wall := IndexFromAction cols index_wall kDown
    if IsType g index_under_wall kElEmpty then
      let g := SetItem zrbht g index kElEmpty (-1)
      let g := SetItem zrbht g index_under_wall element (-1)
      { g with local_state := UpdateIDIndex g.local_state index index_under_wall }
    else g

/-- `RNDGameState::Explode` (`stonesngems_base.cpp` lines 516–539), with an
explicit recursion budget.  Every call replaces a `can_explode` cell by an
explosion-stage element (which cannot explode), so the chain visits each cell
at most once: a fuel of `rows*cols + 1` (supplied by `Explode` below) can
never run out. -/
def ExplodeFuel (zrbht : Int → Nat) :
    Nat → GameState → Int → Int → Nat → GameState
  | 0, g, _, _, _ => g
  | fuel + 1, g, index, element, action =>
    let new_index := IndexFromAction g.board.cols index action
    let ex := elementToExplosion (GetItem g new_index)
    let g :=
      if GetItem g new_index == kElAgent then
        { g with board := { g.board with agent_pos := kAgentPosDie } }
      else g
    let g := SetItem zrbht g new_index element (-1)
    let g := { g with local_state := RemoveIndexID g.local_state new_index }
    (List.range kNumDirections).foldl (fun g dir =>
      if dir == kNoop || !(InBounds g new_index dir) then g
      else if HasProperty g new_index kCanExplode dir then
        ExplodeFuel zrbht fuel g new_index ex dir
      else if HasProperty g new_index kConsumable dir then
        let g := SetItem zrbht g new_index ex (-1) dir
        if GetItem g new_index dir == kElAgent then
          { g with board := { g.board with agent_pos := kAgentPosDie } }
        else g
      else g) g

/-- `RNDGameState::Explode` at its natural recursion budget. -/
def Explode (zrbht : Int → Nat) (g : GameState) (index : Int) (element : Int)
    (action : Nat := kNoop) : GameState :=
  ExplodeFuel zrbht (g.board.rows * g.board.cols + 1) g index element action

/-! ## Per-element update rules (`stonesngems_base.cpp` lines 543–870) -/

/-- `RNDGameState::UpdateStoneFalling` (`stonesngems_base.cpp` lines
560–587), exactly as written — including the second `IsType(index, kElNut,
kDown)` test whose body (commented "Falling on a bomb, explode!") explodes at
the stone's own cell. -/
def UpdateStoneFalling (zrbht : Int → Nat) (g : GameState) (index : Int) :
    GameState :=
  if IsType g index kElEmpty kDown then
    MoveItem zrbht g index kDown
  else if HasProperty g index kCanExplode kDown then
    Explode zrbht g index (elementToExplosion (GetItem g index kDown)) kDown
  else if IsType g index kElWallMagicOn kDown ||
          IsType g index kElWallMagicDormant kDown then
    MoveThroughMagic zrbht g index (magicWallConversion (GetItem g index))
  else if IsType g index kElNut kDown then
    let g := SetItem zrbht g index kElDiamond (-1) kDown
    { g with local_state :=
        UpdateIndexID g.local_state (IndexFromAction g.board.cols index kDown) }
  else if IsType g index kElNut kDown then
    Explode zrbht g index (elementToExplosion (GetItem g index))
  else if CanRollLeft g index then
    RollLeft zrbht g index kElStoneFalling
  else if CanRollRight g index then
    RollRight zrbht g index kElStoneFalling
  else
    SetItem zrbht g index kElStone (-1)

/-- The stone-falling rule as the spec (§4.1) states it: the same case order
without the duplicated (dead) nut test.  This definition follows the spec's
words; `UpdateStoneFalling` above follows the source. -/
def UpdateStoneFallingSpec (zrbht : Int → Nat) (g : GameState) (index : Int) :
    GameState :=
  if IsType g index kElEmpty kDown then
    MoveItem zrbht g index kDown
  else if HasProperty g index kCanExplode kDown then
    Explode zrbht g index (elementToExplosion (GetItem g index kDown)) kDown
  else if IsType g index kElWallMagicOn kDown ||
          IsType g index kElWallMagicDormant kDown then
    MoveThroughMagic zrbht g index (magicWallConversion (GetItem g index))
  else if IsType g index kElNut kDown then
    let g := SetItem zrbht g index kElDiamond (-1) kDown
    { g with local_state :=
        UpdateIndexID g.local_state (IndexFromAction g.board.cols index kDown) }
  else if CanRollLeft g index then
    RollLeft zrbht g index kElStoneFalling
  else if CanRollRight g index then
    RollRight zrbht g index kElStoneFalling
  else
    SetItem zrbht g index kElStone (-1)

/-- `RNDGameState::UpdateStone`. -/
def UpdateStone (zrbht : Int → Nat) (g : GameState) (index : Int) : GameState :=
  if !g.shared.gravity then g
  else if IsType g index kElEmpty kDown then
    UpdateStoneFalling zrbht (SetItem zrbht g index kElStoneFalling (-1)) index
  else if CanRollLeft g index then
    RollLeft zrbht g index kElStoneFalling
  else if CanRollRight g index then
    RollRight zrbht g index kElStoneFalling
  else g

/-- `RNDGameState::UpdateDiamondFalling`. -/
def UpdateDiamondFalling (zrbht : Int → Nat) (g : GameState) (index : Int) :
    GameState :=
  if IsType g index kElEmpty kDown then
    MoveItem zrbht g index kDown
  else if HasProperty g index kCanExplode kDown &&
          !(IsType g index kElBomb kDown) &&
          !(IsType g index kElBombFalling kDown) then
    Explode zrbht g index (elementToExplosion (GetItem g index kDown)) kDown
  else if IsType g index kElWallMagicOn kDown ||
          IsType g index kElWallMagicDormant kDown then
    MoveThroughMagic zrbht g index (magicWallConversion (GetItem g index))
  else if CanRollLeft g index then
    RollLeft zrbht g index kElDiamondFalling
  else if CanRollRight g index then
    RollRight zrbht g index kElDiamondFalling
  else
    SetItem zrbht g index kElDiamond (-1)

/-- `RNDGameState::UpdateDiamond`. -/
def UpdateDiamond (zrbht : Int → Nat) (g : GameState) (index : Int) : GameState :=
  if !g.shared.gravity then g
  else if IsType g index kElEmpty kDown then
    UpdateDiamondFalling zrbht (SetItem zrbht g index kElDiamondFalling (-1)) index
  else if CanRollLeft g index then
    RollLeft zrbht g index kElDiamondFalling
  else if CanRollRight g index then
    RollRight zrbht g index kElDiamondFalling
  else g

/-- `RNDGameState::UpdateNutFalling`. -/
def UpdateNutFalling (zrbht : Int → Nat) (g : GameState) (index : Int) :
    GameState :=
  if IsType g index kElEmpty kDown then
    MoveItem zrbht g index kDown
  else if CanRollLeft g index then
    RollLeft zrbht g index kElNutFalling
  else if CanRollRight g index then
    RollRight zrbht g index kElNutFalling
  else
    SetItem zrbht g index kElNut (-1)

/-- `RNDGameState::UpdateNut`. -/
def UpdateNut (zrbht : Int → Nat) (g : GameState) (index : Int) : GameState :=
  if !g.shared.gravity then g
  else if IsType g index kElEmpty kDown then
    UpdateNutFalling zrbht (SetItem zrbht g index kElNutFalling (-1)) index
  else if CanRollLeft g index then
    RollLeft zrbht g index kElNutFalling
  else if CanRollRight g index then
    RollRight zrbht g index kElNutFalling
  else g

/-- `RNDGameState::UpdateBombFalling`. -/
def UpdateBombFalling (zrbht : Int → Nat) (g : GameState) (index : Int) :
    GameState :=
  if IsType g index kElEmpty kDown then
    MoveItem zrbht g index kDown
  else if CanRollLeft g index then
    RollLeft zrbht g index kElBombFalling
  else if CanRollRight g index then
    RollRight zrbht g index kElBombFalling
  else
    Explode zrbht g index (elementToExplosion (GetItem g index))

/-- `RNDGameState::UpdateBomb` (note: rolls keep the *stationary* bomb
element, as in the source). -/
def UpdateBomb (zrbht : Int → Nat) (g : GameState) (index : Int) : GameState :=
  if !g.shared.gravity then g
  else if IsType g index kElEmpty kDown then
    UpdateBombFalling zrbht (SetItem zrbht g index kElBombFalling (-1)) index
  else if CanRollLeft g index then
    RollLeft zrbht g index kElBomb
  else if CanRollRight g index then
    RollRight zrbht g index kElBomb
  else g

/-- `RNDGameState::UpdateExit`. -/
def UpdateExit (zrbht : Int → Nat) (g : GameState) (index : Int) : GameState :=
  if g.local_state.gems_collected ≥ g.board.gems_required then
    SetItem zrbht g index kElExitOpen (-1)
  else g

/-- `RNDGameState::OpenGate` (`stonesngems_base.cpp` lines 865–870): the
closed-gate indices are collected once, then each is set to its open
variant. -/
def OpenGate (zrbht : Int → Nat) (g : GameState) (gate : Int) : GameState :=
  (g.board.findAll gate).foldl
    (fun g index => SetItem zrbht g index (gateOpenMap (GetItem g index)) (-1)) g

/-- The landing side-effects when the agent walks through an open gate onto a
traversable element (the inner block of `UpdateAgent`,
`stonesngems_base.cpp` lines 732–742): collect a diamond or a key sitting
past the gate. -/
def GateLandingEffects (zrbht : Int → Nat) (g : GameState) (index_gate : Int)
    (action : Nat) : GameState :=
  if IsType g index_gate kElDiamond action ||
     IsType g index_gate kElDiamondFalling action then
    { g with local_state := { g.local_state with
        gems_collected := (g.local_state.gems_collected + 1) % 2 ^ 8
        current_reward := (g.local_state.current_reward +
          pointMap (GetItem g index_gate action)) % 2 ^ 8
        reward_signal := g.local_state.reward_signal ||| kRewardCollectDiamond } }
  else if IsKey (GetItem g index_gate action) then
    let key_type := GetItem g index_gate action
    let g := OpenGate zrbht g (keyToGate key_type)
    { g with local_state := { g.local_state with
        reward_signal := g.local_state.reward_signal ||| kRewardCollectKey
          ||| keyToSignal key_type } }
  else g

/-- `RNDGameState::UpdateAgent` (`stonesngems_base.cpp` lines 698–760).  The
local `cols`/`index_gate` variables of the source are inlined, and the
gate-landing block is the `GateLandingEffects` helper above. -/
def UpdateAgent (zrbht : Int → Nat) (g : GameState) (index : Int)
    (action : Nat) : GameState :=
  if !(InBounds g index action) then g
  else if IsType g index kElEmpty action || IsType g index kElDirt action then
    setAgentIdx (MoveItem zrbht g index action)
      (IndexFromAction g.board.cols index action)
  else if IsType g index kElDiamond action ||
          IsType g index kElDiamondFalling action then
    let ls := g.local_state
    let ls := { ls with
      gems_collected := (ls.gems_collected + 1) % 2 ^ 8
      current_reward := (ls.current_reward + pointMap (GetItem g index action)) % 2 ^ 8
      reward_signal := ls.reward_signal ||| kRewardCollectDiamond }
    let g2 := MoveItem zrbht { g with local_state := ls } index action
    let ls2 := RemoveIndexID g2.local_state (IndexFromAction g.board.cols index action)
    setAgentIdx { g2 with local_state := ls2 }
      (IndexFromAction g.board.cols index action)
  else if (action == kLeft || action == kRight) &&
          HasProperty g index kPushable action then
    PushEl zrbht g index (GetItem g index action)
      (elToFalling (GetItem g index action)) action
  else if IsKey (GetItem g index action) then
    let key_type := GetItem g index action
    let g2 := OpenGate zrbht g (keyToGate key_type)
    let g3 := setAgentIdx (MoveItem zrbht g2 index action)
      (IndexFromAction g.board.cols index action)
    { g3 with local_state := { g3.local_state with
        reward_signal := g3.local_state.reward_signal ||| kRewardCollectKey
          ||| keyToSignal key_type } }
  else if IsOpenGate (GetItem g index action) then
    if HasProperty g (IndexFromAction g.board.cols index action) kTraversable action then
      let g2 := GateLandingEffects zrbht g (IndexFromAction g.board.cols index action) action
      let g3 := SetItem zrbht g2 (IndexFromAction g.board.cols index action) kElAgent (-1) action
      let g4 := SetItem zrbht g3 index kElEmpty (-1)
      let g5 := setAgentIdx g4
        (IndexFromAction g.board.cols (IndexFromAction g.board.cols index action) action)
      { g5 with local_state := { g5.local_state with
          reward_signal := g5.local_state.reward_signal ||| kRewardWalkThroughGate
            ||| gateToSignal (GetItem g5 (IndexFromAction g.board.cols index action)) } }
    else g
  else if IsType g index kElExitOpen action then
    let g2 := MoveItem zrbht g index action
    let g3 := SetItem zrbht g2 index kElAgentInExit (-1) action
    let g4 := { g3 with board := { g3.board with
        agent_pos := kAgentPosExit
        agent_idx := IndexFromAction g.board.cols index action } }
    { g4 with local_state := { g4.local_state with
        reward_signal := g4.local_state.reward_signal ||| kRewardWalkThroughExit
        current_reward :=
          (((g4.local_state.current_reward : Int) +
            Int.tdiv (g4.local_state.steps_remaining * 100) g4.board.max_steps).emod
            (2 ^ 8)).toNat } }
  else g

/-- `RNDGameState::UpdateFirefly` (`stonesngems_base.cpp` lines 762–779). -/
def UpdateFirefly (zrbht : Int → Nat) (g : GameState) (index : Int)
    (action : Nat) : GameState :=
  let new_dir := kRotateLeftTable action
  if IsTypeAdjacent g index kElAgent || IsTypeAdjacent g index kElBlob then
    Explode zrbht g index (elementToExplosion (GetItem g index))
  else if IsType g index kElEmpty new_dir then
    MoveItem zrbht (SetItem zrbht g index (directionToFirefly new_dir) (-1)) index new_dir
  else if IsType g index kElEmpty action then
    MoveItem zrbht (SetItem zrbht g index (directionToFirefly action) (-1)) index action
  else
    SetItem zrbht g index (directionToFirefly (kRotateRightTable action)) (-1)

/-- `RNDGameState::UpdateButterfly` (`stonesngems_base.cpp` lines 781–798). -/
def UpdateButterfly (zrbht : Int → Nat) (g : GameState) (index : Int)
    (action : Nat) : GameState :=
  let new_dir := kRotateRightTable action
  if IsTypeAdjacent g index kElAgent || IsTypeAdjacent g index kElBlob then
    Explode zrbht g index (elementToExplosion (GetItem g index))
  else if IsType g index kElEmpty new_dir then
    MoveItem zrbht (SetItem zrbht g index (directionToButterfly new_dir) (-1)) index new_dir
  else if IsType g index kElEmpty action then
    MoveItem zrbht (SetItem zrbht g index (directionToButterfly action) (-1)) index action
  else
    SetItem zrbht g index (directionToButterfly (kRotateLeftTable action)) (-1)

/-- `RNDGameState::UpdateOrange` (`stonesngems_base.cpp` lines 800–825). -/
def UpdateOrange (zrbht : Int → Nat) (g : GameState) (index : Int)
    (action : Nat) : GameState :=
  if IsType g index kElEmpty action then
    MoveItem zrbht g index action
  else if IsTypeAdjacent g index kElAgent then
    Explode zrbht g index (elementToExplosion (GetItem g index))
  else
    let open_dirs := (List.range kNumActions).filter (fun dir =>
      dir ≠ kNoop && InBounds g index dir && IsType g index kElEmpty dir)
    if open_dirs ≠ [] then
      let r := xorshift64 g.local_state.random_state
      let g := { g with local_state := { g.local_state with random_state := r } }
      let new_dir := open_dirs.getD (r % open_dirs.length) kNoop
      SetItem zrbht g index (directionToOrange new_dir) (-1)
    else g

/-- `RNDGameState::UpdateMagicWall` (`stonesngems_base.cpp` lines 827–836). -/
def UpdateMagicWall (zrbht : Int → Nat) (g : GameState) (index : Int) :
    GameState :=
  if g.local_state.magic_active then
    SetItem zrbht g index kElWallMagicOn (-1)
  else if g.local_state.magic_wall_steps > 0 then
    SetItem zrbht g index kElWallMagicDormant (-1)
  else
    SetItem zrbht g index kElWallMagicExpired (-1)

/-- `RNDGameState::UpdateBlob` (`stonesngems_base.cpp` lines 838–858).  The
two successive `xorshift64(local_state.random_state)` calls each advance the
RNG state. -/
def UpdateBlob (zrbht : Int → Nat) (g : GameState) (index : Int) : GameState :=
  if g.local_state.blob_swap ≠ kNullElementCode then
    let g := SetItem zrbht g index g.local_state.blob_swap (-1)
    { g with local_state := AddIndexID g.board g.local_state index }
  else
    let g := { g with local_state := { g.local_state with
        blob_size := (g.local_state.blob_size + 1) % 2 ^ 16 } }
    let g :=
      if IsTypeAdjacent g index kElEmpty || IsTypeAdjacent g index kElDirt then
        { g with local_state := { g.local_state with blob_enclosed := false } }
      else g
    let r1 := xorshift64 g.local_state.random_state
    let will_grow := r1 % 256 < g.shared.blob_chance
    let r2 := xorshift64 r1
    let grow_dir := r2 % kNumActions
    let g := { g with local_state := { g.local_state with random_state := r2 } }
    if will_grow &&
       (IsType g index kElEmpty grow_dir || IsType g index kElDirt grow_dir) then
      let g := SetItem zrbht g index kElBlob (-1) grow_dir
      { g with local_state :=
          RemoveIndexID g.local_state (IndexFromAction g.board.cols index grow_dir) }
    else g

/-- `RNDGameState::UpdateExplosions` (`stonesngems_base.cpp` lines 860–863). -/
def UpdateExplosions (zrbht : Int → Nat) (g : GameState) (index : Int) :
    GameState :=
  let g := SetItem zrbht g index (explosionToElement (GetItem g index)) (-1)
  { g with local_state := AddIndexID g.board g.local_state index }

/-! ## Scan control (`stonesngems_base.cpp` lines 874–898) -/

/-- `RNDGameState::StartScan`: decrement `steps_remaining` when positive,
zero the per-scan accumulators, and clear `has_updated`
(`board.reset_updated()`, modelled from the spec: all cells false). -/
def StartScan (g : GameState) : GameState :=
  let ls := g.local_state
  let ls := if ls.steps_remaining > 0 then
      { ls with steps_remaining := ls.steps_remaining + (-1) } else ls
  let ls := { ls with
    current_reward := 0
    blob_size := 0
    blob_enclosed := true
    reward_signal := 0 }
  { g with local_state := ls
           board := { g.board with
             has_updated := List.replicate (g.board.rows * g.board.cols) false } }

/-- `RNDGameState::EndScan` (`stonesngems_base.cpp` lines 885–898): the blob
swap decision (note: two *independent* `if`s, not `if`/`else if`), and the
magic-wall countdown. -/
def EndScan (blob_max_size : Nat) (ls : LocalState) : LocalState :=
  let ls :=
    if ls.blob_swap = kNullElementCode then
      let ls := if ls.blob_enclosed then { ls with blob_swap := kElDiamond } else ls
      if ls.blob_size > blob_max_size then { ls with blob_swap := kElStone } else ls
    else ls
  let ls :=
    if ls.magic_active then { ls with magic_wall_steps := ls.magic_wall_steps - 1 }
    else ls
  { ls with magic_active := ls.magic_active && decide (ls.magic_wall_steps > 0) }

/-- Per-cell dispatch of the scan loop (`apply_action`, `stonesngems_base.cpp`
lines 101–153). -/
def updateCell (zrbht : Int → Nat) (g : GameState) (i : Nat) : GameState :=
  if lgetD g.board.has_updated (Int.ofNat i) false then g
  else if g.board.item (Int.ofNat i) = kElStone then UpdateStone zrbht g (Int.ofNat i)
  else if g.board.item (Int.ofNat i) = kElStoneFalling then
    UpdateStoneFalling zrbht g (Int.ofNat i)
  else if g.board.item (Int.ofNat i) = kElDiamond then UpdateDiamond zrbht g (Int.ofNat i)
  else if g.board.item (Int.ofNat i) = kElDiamondFalling then
    UpdateDiamondFalling zrbht g (Int.ofNat i)
  else if g.board.item (Int.ofNat i) = kElNut then UpdateNut zrbht g (Int.ofNat i)
  else if g.board.item (Int.ofNat i) = kElNutFalling then
    UpdateNutFalling zrbht g (Int.ofNat i)
  else if g.board.item (Int.ofNat i) = kElBomb then UpdateBomb zrbht g (Int.ofNat i)
  else if g.board.item (Int.ofNat i) = kElBombFalling then
    UpdateBombFalling zrbht g (Int.ofNat i)
  else if g.board.item (Int.ofNat i) = kElExitClosed then UpdateExit zrbht g (Int.ofNat i)
  else if g.board.item (Int.ofNat i) = kElBlob then UpdateBlob zrbht g (Int.ofNat i)
  else if IsButterfly (g.board.item (Int.ofNat i)) then
    UpdateButterfly zrbht g (Int.ofNat i) (butterflyToDirection (g.board.item (Int.ofNat i)))
  else if IsFirefly (g.board.item (Int.ofNat i)) then
    UpdateFirefly zrbht g (Int.ofNat i) (fireflyToDirection (g.board.item (Int.ofNat i)))
  else if IsOrange (g.board.item (Int.ofNat i)) then
    UpdateOrange zrbht g (Int.ofNat i) (orangeToDirection (g.board.item (Int.ofNat i)))
  else if IsMagicWall (g.board.item (Int.ofNat i)) then UpdateMagicWall zrbht g (Int.ofNat i)
  else if IsExplosion (g.board.item (Int.ofNat i)) then UpdateExplosions zrbht g (Int.ofNat i)
  else g

/-- `RNDGameState::apply_action` (`stonesngems_base.cpp` lines 93–156):
`StartScan`, the agent update, the cell scan in flat index order, `EndScan`. -/
def apply_action (zrbht : Int → Nat) (g : GameState) (action : Nat) : GameState :=
  let g := StartScan g
  let g := UpdateAgent zrbht g g.board.agent_idx action
  let g := (List.range (g.board.rows * g.board.cols)).foldl (updateCell zrbht) g
  { g with local_state := EndScan g.shared.blob_max_size g.local_state }

/-- `RNDGameState::is_terminal` (`stonesngems_base.cpp` lines 158–162). -/
def is_terminal (g : GameState) : Bool :=
  (g.board.max_steps > 0 && g.local_state.steps_remaining ≤ 0) ||
  g.board.agent_pos < 0

/-- `RNDGameState::is_solution` (`stonesngems_base.cpp` lines 164–168). -/
def is_solution (g : GameState) : Bool :=
  !(g.board.max_steps > 0 && g.local_state.steps_remaining ≤ 0) &&
  g.board.agent_pos == kAgentPosExit

/-! ## Board parsing and reset
(`util.h` is not under `src/`; `reset` is `stonesngems_base.cpp` lines 44–91) -/

/-- Modelled from the spec (§4.1, §6): `util::parse_board_str` — the board
string is `rows|cols|max_steps|gems_required|cell0|…` and the parser fills the
grid in row-major order, setting `agent_idx = agent_pos = index_of(kElAgent)`
(or `-1` if absent).  Modelled at the token level (the string splitting is
out-of-`src/` code); a malformed token list yields the empty board, standing
in for the parser's failure. -/
def parse_board (tokens : List Int) : Board :=
  match tokens with
  | rows :: cols :: max_steps :: gems_required :: cells =>
    let agent_idx : Int :=
      match cells.findIdx? (fun c => c == kElAgent) with
      | some n => Int.ofNat n
      | none => -1
    { rows := rows.toNat
      cols := cols.toNat
      max_steps := max_steps
      gems_required := gems_required.toNat
      grid := cells
      has_updated := List.replicate (rows.toNat * cols.toNat) false
      agent_pos := agent_idx
      agent_idx := agent_idx
      zorb_hash := 0 }
  | _ =>
    { rows := 0, cols := 0, max_steps := 0, gems_required := 0, grid := []
      has_updated := [], agent_pos := -1, agent_idx := -1, zorb_hash := 0 }

/-- `RNDGameState::reset` (`stonesngems_base.cpp` lines 44–91): parse the
board, rebuild the local state, **assign `shared.blob_chance =
cols*rows*shared.blob_max_size`** (line 50, stored into the `uint8_t` field),
register ids for every cell, and fold the Zobrist entries of all cells into
the hash.  The `zrbht` table itself is sampled by `std::mt19937` (library
code); it is the abstract `zrbht` argument here, and the in-bounds tables are
recomputed on demand by `InBounds`. -/
def reset (zrbht : Int → Nat) (params : SharedStateInfo) (tokens : List Int) :
    GameState :=
  let board := parse_board tokens
  let ls := { initLocalState with
    random_state := splitmix64 params.rng_seed
    steps_remaining := board.max_steps }
  let shared := { params with
    blob_chance := (board.cols * board.rows * params.blob_max_size) % 2 ^ 8 }
  let ls := (List.range (board.cols * board.rows)).foldl
    (fun ls i => AddIndexID board ls (Int.ofNat i)) ls
  let board := { board with
    zorb_hash := (List.range (board.cols * board.rows)).foldl
      (fun h i =>
        h ^^^ zrbht (board.item (Int.ofNat i) * (board.cols * board.rows) + Int.ofNat i))
      board.zorb_hash }
  { shared := shared, board := board, local_state := ls }

/-- The states reachable from `reset` by `apply_action` calls with legal
actions (spec §4.1: actions are `0 ≤ a < kNumActions`). -/
inductive Reachable (zrbht : Int → Nat) (g0 : GameState) : GameState → Prop
  | refl : Reachable zrbht g0 g0
  | step {g : GameState} {a : Nat} : Reachable zrbht g0 g → a < kNumActions →
      Reachable zrbht g0 (apply_action zrbht g a)

/-- The guard chain of `UpdateAgent` up to (and including) the
walk-into-open-exit branch (`stonesngems_base.cpp` line 751): true exactly
when applying `action` makes the agent move into an open exit. -/
def walksIntoOpenExit (g : GameState) (action : Nat) : Bool :=
  let g := StartScan g
  let index := g.board.agent_idx
  InBounds g index action &&
  !(IsType g index kElEmpty action || IsType g index kElDirt action) &&
  !(IsType g index kElDiamond action || IsType g index kElDiamondFalling action) &&
  !((action == kLeft || action == kRight) && HasProperty g index kPushable action) &&
  !(IsKey (GetItem g index action)) &&
  !(IsOpenGate (GetItem g index action)) &&
  IsType g index kElExitOpen action

/-! ## Zobrist hash, recomputed from scratch (spec §3 invariants, §8) -/

/-- XOR of `f 0, …, f (n-1)`. -/
def xorRange (f : Nat → Nat) (n : Nat) : Nat :=
  (List.range n).foldl (fun h i => h ^^^ f i) 0

/-- The Zobrist hash recomputed from scratch: the XOR over all cell indices
`i` of `zrbht[cell(i)*N + i]` with `N = cols*rows` (the layout used by
`reset`, `MoveItem` and `SetItem`). -/
def hashFromScratch (zrbht : Int → Nat) (b : Board) : Nat :=
  xorRange
    (fun i => zrbht (b.item (Int.ofNat i) * (b.cols * b.rows) + Int.ofNat i))
    (b.cols * b.rows)

/-- A board is well-formed when its grid has exactly `cols*rows` cells (what
`parse_board_str` produces for a well-formed board string). -/
def BoardWF (b : Board) : Prop :=
  b.grid.length = b.cols * b.rows

/-- One grid mutation of the simulator: every grid write in
`stonesngems_base.cpp` goes through `SetItem` or `MoveItem`. -/
inductive BoardOp where
  | set (index element : Int) (action : Nat)
  | move (index : Int) (action : Nat)

/-- Apply a mutation. -/
def applyOp (zrbht : Int → Nat) (g : GameState) : BoardOp → GameState
  | .set index element action => SetItem zrbht g index element (-1) action
  | .move index action => MoveItem zrbht g index action

/-- The mutation touches only in-range cells (the source guards every
`SetItem`/`MoveItem` call with `InBounds`; an out-of-range access would be
undefined behaviour in C++). -/
def opValid (g : GameState) : BoardOp → Prop
  | .set index _ action =>
      0 ≤ IndexFromAction g.board.cols index action ∧
      IndexFromAction g.board.cols index action < (g.board.cols * g.board.rows : Int)
  | .move index action =>
      0 ≤ index ∧ index < (g.board.cols * g.board.rows : Int) ∧
      0 ≤ IndexFromAction g.board.cols index action ∧
      IndexFromAction g.board.cols index action < (g.board.cols * g.board.rows : Int)

/-- States reachable from `g0` by sequences of in-range `SetItem`/`MoveItem`
mutations — the board mutations performed by `apply_action` calls. -/
inductive MutSeq (zrbht : Int → Nat) (g0 : GameState) : GameState → Prop
  | refl : MutSeq zrbht g0 g0
  | step {g : GameState} {op : BoardOp} : MutSeq zrbht g0 g → opValid g op →
      MutSeq zrbht g0 (applyOp zrbht g op)

end StonesNGems

namespace TSQueue

/-! ## The bounded blocking queue (`src/queue.h`).

Sequential model of `ThreadedQueue<T>`: a blocking operation (a
`cv_.wait` loop that cannot make progress without another thread) is
represented by `none`; an operation that completes returns `some` of its
result and the new queue state. -/

/-- `ThreadedQueue<T>`: `block_new_values_`, `max_size_` and the FIFO. -/
structure ThreadedQueue (T : Type) where
  block_new_values : Bool
  max_size : Nat
  q : List T
  deriving DecidableEq, Repr

/-- `ThreadedQueue::Push` (`queue.h` lines 16–24): wait while the queue is
full, then enqueue and return `true`.  Note that `block_new_values_` is *not*
consulted: once there is room the value is enqueued unconditionally. -/
def push {T : Type} (qu : ThreadedQueue T) (v : T) :
    Option (Bool × ThreadedQueue T) :=
  if qu.q.length < qu.max_size then
    some (true, { qu with q := qu.q ++ [v] })
  else none

/-- `ThreadedQueue::Pop` (`queue.h` lines 26–38): on an empty queue, return
`none` (`std::nullopt`) if `block_new_values_` is set, otherwise wait;
otherwise dequeue the front. -/
def pop {T : Type} (qu : ThreadedQueue T) :
    Option (Option T × ThreadedQueue T) :=
  match qu.q with
  | [] => if qu.block_new_values then some (none, qu) else none
  | v :: rest => some (some v, { qu with q := rest })

/-- `ThreadedQueue::BlockNewValues` (`queue.h` lines 58–62). -/
def blockNewValues {T : Type} (qu : ThreadedQueue T) : ThreadedQueue T :=
  { qu with block_new_values := true }

end TSQueue

namespace PhsSearch

/-! ## The PHS* cost (`src/search.cpp` lines 132–136).

`phs_cost` operates on `double`s; floating point does not embed, so the
formula is modelled over the reals. -/

/-- The `p` (accumulated log-policy) and `g` (depth) fields of `Node` that
`phs_cost` reads. -/
structure NodePG where
  p : ℝ
  g : ℝ

/-- `phs_cost(node, predicted_h)`: clamp the heuristic at zero, then
`log(h + g + 1e-8) − p·(1 + h/g)`. -/
noncomputable def phs_cost (node : NodePG) (predicted_h : ℝ) : ℝ :=
  let h := if predicted_h < 0 then 0 else predicted_h
  Real.log (h + node.g + 1e-8) - node.p * (1 + h / node.g)

/-! ## The search loop (`src/search.cpp` lines 138–221).

Generic sequential model of `search()`.  The state type, the deterministic
transition (`apply_action` on a cloned state), the terminal/solution tests
and the state equality used by the closed set (`RNDGameState::operator==`)
are parameters, as are the evaluator outputs: the network is an opaque oracle
(spec §1), modelled as deterministic per-state functions, and the
`double`-valued log-policies and costs are modelled over `Int` (their exact
values are a model parameter).  The
C++ `std::priority_queue` pops the smallest `(levin_cost, g)`; among exact
ties the order is unspecified — the model resolves ties to the
earliest-inserted node, one of the executions the source admits. -/

def BUDGET_NODES : Nat := 2000

/-- `Node` of `search.cpp` (the `parent` pointer is stored but never read by
`search()`, so it is omitted). -/
structure SNode (State : Type) where
  state : State
  p : Int
  g : Int
  levin_cost : Int
  action : Int
  h : Int
  action_log_policy : List Int
  deriving DecidableEq, Repr

/-- The search problem: game dynamics plus the evaluator oracle. -/
structure SearchModel (State : Type) where
  step : State → Nat → State
  isSolution : State → Bool
  isTerminal : State → Bool
  stateEq : State → State → Bool
  legalActions : List Nat
  logPolicy : State → List Int
  heuristic : State → Int
  phsCost : Int → Int → Int → Int

/-- Pop the node with the smallest `(levin_cost, g)` (the
`NodeCompareOrdered` order), earliest-inserted first among ties. -/
def popMin {State : Type} :
    List (SNode State) → Option (SNode State × List (SNode State))
  | [] => none
  | n :: rest =>
    match popMin rest with
    | none => some (n, [])
    | some (m, rest2) =>
      if n.levin_cost < m.levin_cost ∨
         (n.levin_cost = m.levin_cost ∧ n.g ≤ m.g) then
        some (n, rest)
      else
        some (m, n :: rest2)

/-- `StateContainer::add_state`: insert only if no equal state is present. -/
def arenaAdd {State : Type} (M : SearchModel State) (arena : List State)
    (s : State) : List State :=
  if arena.any (fun t => M.stateEq t s) then arena else arena ++ [s]

/-- `StateContainer::get_state`: the canonical (first-inserted) equal state. -/
def arenaGet {State : Type} (M : SearchModel State) (arena : List State)
    (s : State) : State :=
  match arena.find? (fun t => M.stateEq t s) with
  | some t => t
  | none => s

/-- The child-generation loop of one expansion (`search.cpp` lines 183–200):
clone the state, apply the action, drop terminal children, canonicalise the
state through the arena, and stage the child node for batched inference. -/
def expandChildren {State : Type} (M : SearchModel State) (arena : List State)
    (node : SNode State) : List (SNode State) × List State :=
  (List.range M.legalActions.length).foldl
    (fun acc i =>
      let a := M.legalActions.getD i kNoop
      let child_state := M.step node.state a
      if M.isTerminal child_state then acc
      else
        let arena := arenaAdd M acc.2 child_state
        let child : SNode State :=
          { state := arenaGet M arena child_state
            p := node.p + node.action_log_policy.getD i 0
            g := node.g + 1
            levin_cost := 0
            action := Int.ofNat a
            h := 0
            action_log_policy := [] }
        (acc.1 ++ [child], arena))
    ([], arena)
where kNoop : Nat := 0

/-- The batched-inference flush (`search.cpp` lines 203–217): for each staged
child whose state is *not* in the closed set, fill in the evaluator outputs
and push it into the open queue; children whose states are already closed are
dropped. -/
def flushChildren {State : Type} (M : SearchModel State) (closed : List State)
    (staged : List (SNode State)) : List (SNode State) :=
  (staged.filter (fun c => !(closed.any (fun s => M.stateEq s c.state)))).map
    (fun c =>
      let h := M.heuristic c.state
      { c with
        action_log_policy := M.logPolicy c.state
        levin_cost := M.phsCost c.p c.g h
        h := h })

/-- The main loop of `search()`.  Arguments: fuel (an upper bound on loop
iterations; the executions evaluated below end by themselves within it), the
open queue, the closed set (a set of states: `NodeCompareEqual` compares the
underlying states), the staged children, the arena, the number of expanded
nodes, and the accumulated trace of expanded (popped) states.  Returns the
trace and the result flag. -/
def searchLoop {State : Type} (M : SearchModel State) :
    Nat → List (SNode State) → List State → List (SNode State) → List State →
    Nat → List State → List State × Bool
  | 0, _, _, _, _, _, trace => (trace, false)
  | fuel + 1, openq, closed, staged, arena, expanded, trace =>
    match popMin openq with
    | none => (trace, false)
    | some (node, openq) =>
      let closed :=
        if closed.any (fun s => M.stateEq s node.state) then closed
        else closed ++ [node.state]
      let expanded := expanded + 1
      let trace := trace ++ [node.state]
      if M.isSolution node.state then (trace, true)
      else if BUDGET_NODES ≤ expanded then (trace, false)
      else
        let (children, arena) := expandChildren M arena node
        let staged := staged ++ children
        if 32 ≤ staged.length ∨ openq.isEmpty then
          searchLoop M fuel (openq ++ flushChildren M closed staged) closed []
            arena expanded trace
        else
          searchLoop M fuel openq closed staged arena expanded trace

/-- `search(input)` (`search.cpp` lines 138–221), returning the expansion
trace alongside the solved flag: evaluate the root, push it into the open
queue, and run the loop. -/
def searchTrace {State : Type} (M : SearchModel State) (root : State)
    (fuel : Nat) : List State × Bool :=
  let rootNode : SNode State :=
    { state := root, p := 0, g := 0, levin_cost := 0, action := -1, h := 0
      action_log_policy := M.logPolicy root }
  searchLoop M fuel [rootNode] [] [] [root] 0 []

end PhsSearch

namespace StonesNGems

/-! ## Concrete instances used to evaluate the model -/

/-- A concrete Zobrist table for evaluating executions whose hash values are
irrelevant (the table entries are `std::mt19937` samples in the source). -/
def zZero : Int → Nat := fun _ => 0

/-- The default game parameters of `kDefaultGameParams`
(`stonesngems_base.h` lines 23–33): `magic_wall_steps = 140`,
`blob_chance = 20`, `blob_max_percentage = 0.16`, `rng_seed = 0`,
`gravity = true`, passed through the `SharedStateInfo` constructor. -/
def sharedDefault : SharedStateInfo :=
  mkSharedStateInfo false 140 20 (16 / 100) 0 true

/-- The default board string `"2|2|-1|0|0|1|1|8"` as a token list. -/
def tokensDefault : List Int := [2, 2, -1, 0, 0, 1, 1, 8]

/-- A 3×3 board (agent and eight empty cells, no timeout): an input on which
both halves of claim C1's intended semantics are visibly violated
(`⌊9·0.16⌋ = 1 ≠ 0`). -/
def tokensC1 : List Int := [3, 3, -1, 0, kElAgent, 1, 1, 1, 1, 1, 1, 1, 1]

/-- The reset state of the default board. -/
def stateDefault : GameState := reset zZero sharedDefault tokensDefault

/-- `stateDefault` with a different `steps_remaining` (and nothing else). -/
def stateDefaultSteps : GameState :=
  { stateDefault with local_state :=
      { stateDefault.local_state with steps_remaining := 5 } }

/-- 1×2 board `[agent, empty]`, no timeout: applying `Right` makes
`MoveItem` vacate cell 0. -/
def tokensC6 : List Int := [1, 2, -1, 0, kElAgent, kElEmpty]

/-- 1×2 board `[agent, open-exit]` with `max_steps = 0` (timeout disabled,
spec §8 boundary behaviours): walking `Right` enters the open exit. -/
def tokensC10 : List Int := [1, 2, 0, 0, kElAgent, kElExitOpen]

/-- 3×2 board: the agent is boxed in at cell 0 (steel walls below, the stone
beside it cannot be pushed off the board), and a stone falls down the right
column. All five actions therefore produce equal child states while the
falling stone keeps the board changing. -/
def tokensC3 : List Int :=
  [3, 2, -1, 0, kElAgent, kElStone, kElWallSteel, kElEmpty, kElWallSteel, kElEmpty]

end StonesNGems

namespace PhsSearch

open StonesNGems

/-- `search()` instantiated at the embedded game: the transition is
`apply_action` on a cloned state, terminal/solution tests and the closed-set
equality (`RNDGameState::operator==`) are the embedded ones.  The evaluator
is a concrete deterministic oracle (uniform log-policies, zero heuristic) and
the cost model orders nodes by depth — one admissible evaluator/cost
resolution of the opaque network. -/
def gameSearchModel : SearchModel GameState :=
  { step := apply_action zZero
    isSolution := is_solution
    isTerminal := is_terminal
    stateEq := gameStateEq
    legalActions := [kNoop, kUp, kRight, kDown, kLeft]
    logPolicy := fun _ => [0, 0, 0, 0, 0]
    heuristic := fun _ => 0
    phsCost := fun _ g _ => g }

/-- The root state for the closed-set counterexample board. -/
def rootC3 : GameState := reset zZero sharedDefault tokensC3

/-- A two-state search model over `Nat` used to instantiate the generic
flush lemma at a concrete input. -/
def natSearchModel : SearchModel Nat :=
  { step := fun s _ => s
    isSolution := fun _ => false
    isTerminal := fun _ => false
    stateEq := fun a b => a == b
    legalActions := [0]
    logPolicy := fun _ => [0]
    heuristic := fun _ => 0
    phsCost := fun _ g _ => g }

/-- A staged child node (state `2`, depth `1`) for the flush lemma. -/
def stagedNodeNat : SNode Nat :=
  { state := 2, p := 0, g := 1, levin_cost := 0, action := 3, h := 0
    action_log_policy := [] }

/-- `stagedNodeNat` after the flush fills in the evaluator outputs. -/
def flushedNodeNat : SNode Nat :=
  { state := 2, p := 0, g := 1, levin_cost := 1, action := 3, h := 0
    action_log_policy := [0] }

end PhsSearch

namespace StonesNGems

/-- The reset state of the `tokensC6` board. -/
def stateC6 : GameState := reset zZero sharedDefault tokensC6

/-- The reset state of the `tokensC10` board. -/
def stateC10 : GameState := reset zZero sharedDefault tokensC10

/-- A local state at the end of a scan with the blob both enclosed and over
the size cap (`blob_swap` still unset). -/
def lsC4 : LocalState := { initLocalState with blob_enclosed := true, blob_size := 5 }

end StonesNGems

/-! # Helper lemmas -/

namespace StonesNGems

theorem foldl_xor_init (f : Nat → Nat) (l : List Nat) (a : Nat) :
    l.foldl (fun h i => h ^^^ f i) a = a ^^^ l.foldl (fun h i => h ^^^ f i) 0 := by
  induction l generalizing a with
  | nil => simp
  | cons x xs ih =>
    simp only [List.foldl_cons]
    rw [ih (a ^^^ f x), ih (0 ^^^ f x), Nat.zero_xor, Nat.xor_assoc]

theorem xorRange_succ (f : Nat → Nat) (n : Nat) :
    xorRange f (n + 1) = xorRange f n ^^^ f n := by
  simp only [xorRange, List.range_succ, List.foldl_append, List.foldl_cons,
    List.foldl_nil]

theorem xor_cancel_left_nat (a b : Nat) : a ^^^ (a ^^^ b) = b := by
  rw [← Nat.xor_assoc, Nat.xor_self, Nat.zero_xor]

theorem xor_left_comm_nat (a b c : Nat) : a ^^^ (b ^^^ c) = b ^^^ (a ^^^ c) := by
  rw [← Nat.xor_assoc, Nat.xor_comm a b, Nat.xor_assoc]

theorem xorRange_congr {f g : Nat → Nat} (n : Nat)
    (h : ∀ i, i < n → f i = g i) : xorRange f n = xorRange g n := by
  induction n with
  | zero => rfl
  | succ m ih =>
    rw [xorRange_succ, xorRange_succ,
      ih (fun i hi => h i (Nat.lt_succ_of_lt hi)), h m (Nat.lt_succ_self m)]

theorem xorRange_update {f g : Nat → Nat} (n t : Nat) (ht : t < n)
    (h : ∀ i, i ≠ t → f i = g i) :
    xorRange g n = xorRange f n ^^^ f t ^^^ g t := by
  induction n with
  | zero => exact absurd ht (Nat.not_lt_zero t)
  | succ m ih =>
    by_cases hlt : t < m
    · rw [xorRange_succ, xorRange_succ, ih hlt, h m (by omega)]
      simp [Nat.xor_assoc, Nat.xor_comm, xor_left_comm_nat]
    · have heq : t = m := by omega
      rw [xorRange_succ, xorRange_succ,
        xorRange_congr m (fun i hi => h i (by omega)), heq, Nat.xor_assoc _ (f m) (f m),
        Nat.xor_self, Nat.xor_zero]

theorem lgetD_lset_self {α : Type} (l : List α) (i : Int) (v d : α)
    (h0 : 0 ≤ i) (hlen : i.toNat < l.length) :
    lgetD (lset l i v) i d = v := by
  simp only [lgetD, lset, if_neg (not_lt.mpr h0)]
  rw [List.getD_eq_getElem?_getD, List.getElem?_set_self (by simpa using hlen)]
  rfl

theorem lgetD_lset_ne {α : Type} (l : List α) (i j : Int) (v d : α)
    (hne : i ≠ j) : lgetD (lset l i v) j d = lgetD l j d := by
  by_cases h0i : 0 ≤ i
  · by_cases h0j : 0 ≤ j
    · simp only [lgetD, lset, if_neg (not_lt.mpr h0i), if_neg (not_lt.mpr h0j)]
      rw [List.getD_eq_getElem?_getD, List.getElem?_set_ne, ← List.getD_eq_getElem?_getD]
      omega
    · simp only [lgetD, lset, if_neg (not_lt.mpr h0i), if_pos (not_le.mp h0j)]
  · simp only [lset, if_pos (not_le.mp h0i)]

theorem lset_length {α : Type} (l : List α) (i : Int) (v : α) :
    (lset l i v).length = l.length := by
  simp only [lset]
  split <;> simp

theorem boardEq_iff (a b : Board) : boardEq a b = true ↔ a = b := by
  cases a
  cases b
  simp only [boardEq, Board.mk.injEq, Bool.and_eq_true, beq_iff_eq]
  tauto

theorem parse_board_zorb_hash (tokens : List Int) :
    (parse_board tokens).zorb_hash = 0 := by
  unfold parse_board
  rcases tokens with _ | ⟨a, _ | ⟨b, _ | ⟨c, _ | ⟨d, rest⟩⟩⟩⟩ <;> rfl

theorem reset_hash_from_scratch (zrbht : Int → Nat) (params : SharedStateInfo)
    (tokens : List Int) :
    (reset zrbht params tokens).board.zorb_hash =
      hashFromScratch zrbht (reset zrbht params tokens).board := by
  simp only [reset, hashFromScratch, xorRange, parse_board_zorb_hash, Board.item]

theorem setItem_hash_preserved (zrbht : Int → Nat) (g : GameState)
    (index element id : Int) (action : Nat)
    (hwf : BoardWF g.board)
    (hinv : g.board.zorb_hash = hashFromScratch zrbht g.board)
    (h0 : 0 ≤ IndexFromAction g.board.cols index action)
    (hlt : IndexFromAction g.board.cols index action <
      (g.board.cols * g.board.rows : Int)) :
    (SetItem zrbht g index element id action).board.zorb_hash =
      hashFromScratch zrbht (SetItem zrbht g index element id action).board := by
  set t := IndexFromAction g.board.cols index action with ht
  set N : Nat := g.board.cols * g.board.rows with hN
  have htn : (t.toNat : Int) = t := Int.toNat_of_nonneg h0
  have htlt : t.toNat < N := by omega
  have hlen : t.toNat < g.board.grid.length := by rw [hwf]; exact htlt
  show (g.board.zorb_hash ^^^
      zrbht (g.board.item t * (↑g.board.cols * ↑g.board.rows) + t)) ^^^
      zrbht (element * (↑g.board.cols * ↑g.board.rows) + t) =
    xorRange (fun i =>
      zrbht (lgetD (lset g.board.grid t element) (Int.ofNat i) kNullElementCode *
        (↑g.board.cols * ↑g.board.rows) + Int.ofNat i)) N
  rw [xorRange_update N t.toNat htlt (f := fun i =>
      zrbht (g.board.item (Int.ofNat i) * (↑g.board.cols * ↑g.board.rows) + Int.ofNat i))
      (fun i hi => by
        have hne : t ≠ Int.ofNat i := fun hEq => hi (by rw [hEq]; exact rfl)
        simp only [Board.item]
        rw [lgetD_lset_ne _ _ _ _ _ hne])]
  have e1 : Int.ofNat t.toNat = t := htn
  rw [e1]
  rw [lgetD_lset_self _ _ _ _ h0 hlen]
  rw [hinv]
  rfl

theorem moveItem_hash_preserved (zrbht : Int → Nat) (g : GameState)
    (index : Int) (action : Nat)
    (hwf : BoardWF g.board)
    (hinv : g.board.zorb_hash = hashFromScratch zrbht g.board)
    (h0i : 0 ≤ index) (hlti : index < (g.board.cols * g.board.rows : Int))
    (h0 : 0 ≤ IndexFromAction g.board.cols index action)
    (hlt : IndexFromAction g.board.cols index action <
      (g.board.cols * g.board.rows : Int)) :
    (MoveItem zrbht g index action).board.zorb_hash =
      hashFromScratch zrbht (MoveItem zrbht g index action).board := by
  set t := IndexFromAction g.board.cols index action with ht
  set N : Nat := g.board.cols * g.board.rows with hN
  have htn : (t.toNat : Int) = t := Int.toNat_of_nonneg h0
  have hin : (index.toNat : Int) = index := Int.toNat_of_nonneg h0i
  have htlt : t.toNat < N := by omega
  have hilt : index.toNat < N := by omega
  have hlen : t.toNat < g.board.grid.length := by rw [hwf]; exact htlt
  have hleni : index.toNat < g.board.grid.length := by rw [hwf]; exact hilt
  set grid1 := lset g.board.grid t (g.board.item index) with hg1
  set grid2 := lset grid1 index kElEmpty with hg2
  have hleni1 : index.toNat < grid1.length := by rw [hg1, lset_length]; exact hleni
  -- the value grid1 stores at `index` is the original item there, whether or
  -- not `t = index`
  have hval1 : lgetD grid1 index kNullElementCode = g.board.item index := by
    by_cases hti : t = index
    · rw [hg1, hti]
      exact lgetD_lset_self _ _ _ _ h0i hleni
    · rw [hg1, lgetD_lset_ne _ _ _ _ _ hti]
      rfl
  have hval1t : lgetD grid1 t kNullElementCode = g.board.item index := by
    rw [hg1]
    exact lgetD_lset_self _ _ _ _ h0 hlen
  show (((g.board.zorb_hash ^^^
        zrbht (g.board.item t * (↑g.board.cols * ↑g.board.rows) + t)) ^^^
        zrbht (lgetD grid1 t kNullElementCode * (↑g.board.cols * ↑g.board.rows) + t)) ^^^
        zrbht (lgetD grid1 index kNullElementCode * (↑g.board.cols * ↑g.board.rows) + index)) ^^^
        zrbht (kElEmpty * (↑g.board.cols * ↑g.board.rows) + index) =
    xorRange (fun i =>
      zrbht (lgetD grid2 (Int.ofNat i) kNullElementCode *
        (↑g.board.cols * ↑g.board.rows) + Int.ofNat i)) N
  rw [xorRange_update N index.toNat hilt (f := fun i =>
      zrbht (lgetD grid1 (Int.ofNat i) kNullElementCode *
        (↑g.board.cols * ↑g.board.rows) + Int.ofNat i))
      (fun i hi => by
        have hne : index ≠ Int.ofNat i := fun hEq => hi (by rw [hEq]; exact rfl)
        rw [hg2, lgetD_lset_ne _ _ _ _ _ hne])]
  rw [xorRange_update N t.toNat htlt (f := fun i =>
      zrbht (g.board.item (Int.ofNat i) * (↑g.board.cols * ↑g.board.rows) + Int.ofNat i))
      (fun i hi => by
        have hne : t ≠ Int.ofNat i := fun hEq => hi (by rw [hEq]; exact rfl)
        simp only [Board.item]
        rw [hg1, lgetD_lset_ne _ _ _ _ _ hne])]
  have e1 : Int.ofNat t.toNat = t := htn
  have e2 : Int.ofNat index.toNat = index := hin
  rw [e1, e2, hval1, hval1t]
  rw [show lgetD grid2 index kNullElementCode = kElEmpty from by
    rw [hg2]; exact lgetD_lset_self _ _ _ _ h0i hleni1]
  rw [hinv]
  rfl

theorem applyOp_wf (zrbht : Int → Nat) (g : GameState) (op : BoardOp)
    (hwf : BoardWF g.board) : BoardWF (applyOp zrbht g op).board := by
  cases op <;>
    simp only [applyOp, SetItem, MoveItem, BoardWF, Board.setCode] <;>
    simpa [lset_length] using hwf

/-! ### `board.max_steps` is never written after parsing -/

theorem maxSteps_mkGame (s : SharedStateInfo) (b : Board) (l : LocalState) :
    (GameState.mk s b l).board.max_steps = b.max_steps := rfl

theorem maxSteps_mkBoard (rows cols : Nat) (ms : Int) (gr : Nat)
    (grid : List Int) (hu : List Bool) (ap ai : Int) (zh : Nat) :
    (Board.mk rows cols ms gr grid hu ap ai zh).max_steps = ms := rfl

theorem maxSteps_SetItem (z : Int → Nat) (g : GameState) (index element id : Int)
    (action : Nat) :
    (SetItem z g index element id action).board.max_steps = g.board.max_steps := rfl

theorem maxSteps_MoveItem (z : Int → Nat) (g : GameState) (index : Int)
    (action : Nat) :
    (MoveItem z g index action).board.max_steps = g.board.max_steps := rfl

theorem maxSteps_RollLeft (z : Int → Nat) (g : GameState) (index element : Int) :
    (RollLeft z g index element).board.max_steps = g.board.max_steps := rfl

theorem maxSteps_RollRight (z : Int → Nat) (g : GameState) (index element : Int) :
    (RollRight z g index element).board.max_steps = g.board.max_steps := rfl

theorem maxSteps_setAgentIdx (g : GameState) (idx : Int) :
    (setAgentIdx g idx).board.max_steps = g.board.max_steps := rfl

theorem maxSteps_StartScan (g : GameState) :
    (StartScan g).board.max_steps = g.board.max_steps := rfl

theorem maxSteps_ite (c : Prop) [Decidable c] (A B : GameState) (v : Int)
    (hA : A.board.max_steps = v) (hB : B.board.max_steps = v) :
    (if c then A else B).board.max_steps = v := by
  split <;> assumption

theorem maxSteps_PushEl (z : Int → Nat) (g : GameState) (index : Int)
    (stationary falling : Int) (action : Nat) :
    (PushEl z g index stationary falling action).board.max_steps =
      g.board.max_steps := by
  simp only [PushEl]
  split_ifs <;>
    simp only [maxSteps_setAgentIdx, maxSteps_MoveItem, maxSteps_SetItem]

theorem maxSteps_MoveThroughMagic (z : Int → Nat) (g : GameState) (index : Int)
    (element : Int) :
    (MoveThroughMagic z g index element).board.max_steps = g.board.max_steps := by
  simp only [MoveThroughMagic]
  split_ifs <;> rfl

theorem foldl_max_steps {β : Type} (f : GameState → β → GameState)
    (hf : ∀ g b, (f g b).board.max_steps = g.board.max_steps) :
    ∀ (l : List β) (g : GameState),
      (l.foldl f g).board.max_steps = g.board.max_steps := by
  intro l
  induction l with
  | nil => intro g; rfl
  | cons x xs ih => intro g; rw [List.foldl_cons, ih, hf]

theorem maxSteps_ExplodeFuel (z : Int → Nat) :
    ∀ (fuel : Nat) (g : GameState) (index element : Int) (action : Nat),
      (ExplodeFuel z fuel g index element action).board.max_steps =
        g.board.max_steps := by
  intro fuel
  induction fuel with
  | zero => intro g i e a; rfl
  | succ n ih =>
    intro g i e a
    simp only [ExplodeFuel]
    rw [foldl_max_steps _ (fun gg dir => by
      split_ifs <;> first
        | rfl
        | exact ih _ _ _ _)]
    exact maxSteps_ite _ _ _ _ rfl rfl

theorem maxSteps_Explode (z : Int → Nat) (g : GameState) (index element : Int)
    (action : Nat) :
    (Explode z g index element action).board.max_steps = g.board.max_steps :=
  maxSteps_ExplodeFuel z _ g index element action

theorem maxSteps_OpenGate (z : Int → Nat) (g : GameState) (gate : Int) :
    (OpenGate z g gate).board.max_steps = g.board.max_steps := by
  unfold OpenGate
  exact foldl_max_steps _ (fun gg i => maxSteps_SetItem z gg i _ (-1) kNoop) _ g

theorem maxSteps_UpdateStoneFalling (z : Int → Nat) (g : GameState) (index : Int) :
    (UpdateStoneFalling z g index).board.max_steps = g.board.max_steps := by
  unfold UpdateStoneFalling
  split_ifs <;>
    simp [maxSteps_MoveItem, maxSteps_Explode, maxSteps_MoveThroughMagic,
      maxSteps_SetItem, maxSteps_RollLeft, maxSteps_RollRight]

theorem maxSteps_UpdateStone (z : Int → Nat) (g : GameState) (index : Int) :
    (UpdateStone z g index).board.max_steps = g.board.max_steps := by
  unfold UpdateStone
  split_ifs <;>
    simp [maxSteps_UpdateStoneFalling, maxSteps_SetItem, maxSteps_RollLeft,
      maxSteps_RollRight]

theorem maxSteps_UpdateDiamondFalling (z : Int → Nat) (g : GameState) (index : Int) :
    (UpdateDiamondFalling z g index).board.max_steps = g.board.max_steps := by
  unfold UpdateDiamondFalling
  split_ifs <;>
    simp [maxSteps_MoveItem, maxSteps_Explode, maxSteps_MoveThroughMagic,
      maxSteps_SetItem, maxSteps_RollLeft, maxSteps_RollRight]

theorem maxSteps_UpdateDiamond (z : Int → Nat) (g : GameState) (index : Int) :
    (UpdateDiamond z g index).board.max_steps = g.board.max_steps := by
  unfold UpdateDiamond
  split_ifs <;>
    simp [maxSteps_UpdateDiamondFalling, maxSteps_SetItem, maxSteps_RollLeft,
      maxSteps_RollRight]

theorem maxSteps_UpdateNutFalling (z : Int → Nat) (g : GameState) (index : Int) :
    (UpdateNutFalling z g index).board.max_steps = g.board.max_steps := by
  unfold UpdateNutFalling
  split_ifs <;>
    simp [maxSteps_MoveItem, maxSteps_SetItem, maxSteps_RollLeft,
      maxSteps_RollRight]

theorem maxSteps_UpdateNut (z : Int → Nat) (g : GameState) (index : Int) :
    (UpdateNut z g index).board.max_steps = g.board.max_steps := by
  unfold UpdateNut
  split_ifs <;>
    simp [maxSteps_UpdateNutFalling, maxSteps_SetItem, maxSteps_RollLeft,
      maxSteps_RollRight]

theorem maxSteps_UpdateBombFalling (z : Int → Nat) (g : GameState) (index : Int) :
    (UpdateBombFalling z g index).board.max_steps = g.board.max_steps := by
  unfold UpdateBombFalling
  split_ifs <;>
    simp [maxSteps_MoveItem, maxSteps_Explode, maxSteps_SetItem,
      maxSteps_RollLeft, maxSteps_RollRight]

theorem maxSteps_UpdateBomb (z : Int → Nat) (g : GameState) (index : Int) :
    (UpdateBomb z g index).board.max_steps = g.board.max_steps := by
  unfold UpdateBomb
  split_ifs <;>
    simp [maxSteps_UpdateBombFalling, maxSteps_SetItem, maxSteps_RollLeft,
      maxSteps_RollRight]

theorem maxSteps_UpdateExit (z : Int → Nat) (g : GameState) (index : Int) :
    (UpdateExit z g index).board.max_steps = g.board.max_steps := by
  unfold UpdateExit
  split <;> rfl

theorem maxSteps_UpdateMagicWall (z : Int → Nat) (g : GameState) (index : Int) :
    (UpdateMagicWall z g index).board.max_steps = g.board.max_steps := by
  unfold UpdateMagicWall
  split_ifs <;> rfl

theorem maxSteps_UpdateExplosions (z : Int → Nat) (g : GameState) (index : Int) :
    (UpdateExplosions z g index).board.max_steps = g.board.max_steps := rfl

theorem maxSteps_UpdateBlob (z : Int → Nat) (g : GameState) (index : Int) :
    (UpdateBlob z g index).board.max_steps = g.board.max_steps := by
  simp only [UpdateBlob]
  split_ifs <;> rfl

theorem maxSteps_UpdateFirefly (z : Int → Nat) (g : GameState) (index : Int)
    (action : Nat) :
    (UpdateFirefly z g index action).board.max_steps = g.board.max_steps := by
  unfold UpdateFirefly
  split_ifs <;>
    first
      | rfl
      | exact maxSteps_Explode z g index _ kNoop
      | (simp only []; split <;> rfl)

theorem maxSteps_UpdateButterfly (z : Int → Nat) (g : GameState) (index : Int)
    (action : Nat) :
    (UpdateButterfly z g index action).board.max_steps = g.board.max_steps := by
  unfold UpdateButterfly
  split_ifs <;>
    first
      | rfl
      | exact maxSteps_Explode z g index _ kNoop
      | (simp only []; split <;> rfl)

theorem maxSteps_UpdateOrange (z : Int → Nat) (g : GameState) (index : Int)
    (action : Nat) :
    (UpdateOrange z g index action).board.max_steps = g.board.max_steps := by
  unfold UpdateOrange
  split_ifs <;>
    first
      | rfl
      | exact maxSteps_Explode z g index _ kNoop
      | (simp only []; split <;> rfl)

theorem maxSteps_GateLandingEffects (z : Int → Nat) (g : GameState)
    (index_gate : Int) (action : Nat) :
    (GateLandingEffects z g index_gate action).board.max_steps =
      g.board.max_steps := by
  unfold GateLandingEffects
  split_ifs <;>
    simp only [maxSteps_mkGame, maxSteps_mkBoard, maxSteps_OpenGate]

theorem maxSteps_UpdateAgent (z : Int → Nat) (g : GameState) (index : Int)
    (action : Nat) :
    (UpdateAgent z g index action).board.max_steps = g.board.max_steps := by
  unfold UpdateAgent
  split_ifs <;>
    simp only [maxSteps_mkGame, maxSteps_mkBoard, maxSteps_setAgentIdx,
      maxSteps_MoveItem, maxSteps_SetItem, maxSteps_OpenGate, maxSteps_PushEl,
      maxSteps_GateLandingEffects]

theorem maxSteps_updateCell (z : Int → Nat) (g : GameState) (i : Nat) :
    (updateCell z g i).board.max_steps = g.board.max_steps := by
  unfold updateCell
  refine maxSteps_ite _ _ _ _ rfl
    (maxSteps_ite _ _ _ _ (maxSteps_UpdateStone z g _)
    (maxSteps_ite _ _ _ _ (maxSteps_UpdateStoneFalling z g _)
    (maxSteps_ite _ _ _ _ (maxSteps_UpdateDiamond z g _)
    (maxSteps_ite _ _ _ _ (maxSteps_UpdateDiamondFalling z g _)
    (maxSteps_ite _ _ _ _ (maxSteps_UpdateNut z g _)
    (maxSteps_ite _ _ _ _ (maxSteps_UpdateNutFalling z g _)
    (maxSteps_ite _ _ _ _ (maxSteps_UpdateBomb z g _)
    (maxSteps_ite _ _ _ _ (maxSteps_UpdateBombFalling z g _)
    (maxSteps_ite _ _ _ _ (maxSteps_UpdateExit z g _)
    (maxSteps_ite _ _ _ _ (maxSteps_UpdateBlob z g _)
    (maxSteps_ite _ _ _ _ (maxSteps_UpdateButterfly z g _ _)
    (maxSteps_ite _ _ _ _ (maxSteps_UpdateFirefly z g _ _)
    (maxSteps_ite _ _ _ _ (maxSteps_UpdateOrange z g _ _)
    (maxSteps_ite _ _ _ _ (maxSteps_UpdateMagicWall z g _)
    (maxSteps_ite _ _ _ _ (maxSteps_UpdateExplosions z g _)
      rfl)))))))))))))))

theorem maxSteps_apply_action (z : Int → Nat) (g : GameState) (action : Nat) :
    (apply_action z g action).board.max_steps = g.board.max_steps := by
  unfold apply_action
  show (List.foldl (updateCell z) _ _).board.max_steps = _
  rw [foldl_max_steps _ (maxSteps_updateCell z), maxSteps_UpdateAgent,
    maxSteps_StartScan]

end StonesNGems

/-! # Claim theorems -/

namespace StonesNGems

/-- Claim C1 (status `code_bug`): after `reset()` the intended semantics —
`blob_max_size = ⌊cols·rows·blob_max_percentage⌋` with `blob_chance` kept as
configured — does not hold.  Evaluating the embedded `reset` at the failing
input (a 3×3 board under the default parameters, `blob_chance = 20`,
`blob_max_percentage = 0.16`): line 50 of `stonesngems_base.cpp` overwrites
`blob_chance` with `cols·rows·blob_max_size = 9·0 = 0` and leaves
`blob_max_size` at `0`, although `⌊9·0.16⌋ = 1`. -/
theorem c1_reset_clobbers_blob_chance :
    (reset zZero sharedDefault tokensC1).shared.blob_chance = 0 ∧
    sharedDefault.blob_chance = 20 ∧
    (reset zZero sharedDefault tokensC1).shared.blob_max_size = 0 ∧
    ⌊((reset zZero sharedDefault tokensC1).board.cols *
        (reset zZero sharedDefault tokensC1).board.rows : ℚ) *
      sharedDefault.blob_max_percentage⌋ = 1 := by
  refine ⟨by decide, by decide, by decide, ?_⟩
  norm_num [reset, parse_board, tokensC1, sharedDefault, mkSharedStateInfo]
  show ⌊((3 : ℚ)) * 3 * (4 / 25)⌋ = 1
  norm_num

/-- Claim C2 (counterexample): `RNDGameState::operator==` does *not* compare
every `LocalState` field — two states with identical boards that differ only
in `steps_remaining` compare equal, so equality does not imply equality of
all `LocalState` fields. -/
theorem c2_counterexample_partial_equality :
    gameStateEq stateDefault stateDefaultSteps = true ∧
    stateDefault.local_state.steps_remaining ≠
      stateDefaultSteps.local_state.steps_remaining ∧
    localStateEqFull stateDefault.local_state stateDefaultSteps.local_state = false := by
  refine ⟨by decide, by decide, by decide⟩

/-- Claim C2 (status `corrected`, amended): `RNDGameState::operator==` holds
iff the boards are equal and the five `LocalState` fields that
`LocalState::operator==` compares — `magic_wall_steps`, `blob_size`,
`gems_collected`, `magic_active`, `blob_enclosed` — are equal; the remaining
`LocalState` fields (`steps_remaining`, `random_state`, `reward_signal`,
`blob_swap`, `current_reward`, `id_state` and the id maps) are ignored.
Zobrist hashes are compared only as part of full board equality, never
alone. -/
theorem c2_equality_board_and_five_fields (a b : GameState) :
    gameStateEq a b = true ↔
      (a.board = b.board ∧
       a.local_state.magic_wall_steps = b.local_state.magic_wall_steps ∧
       a.local_state.blob_size = b.local_state.blob_size ∧
       a.local_state.gems_collected = b.local_state.gems_collected ∧
       a.local_state.magic_active = b.local_state.magic_active ∧
       a.local_state.blob_enclosed = b.local_state.blob_enclosed) := by
  simp only [gameStateEq, localStateEq, Bool.and_eq_true, beq_iff_eq, boardEq_iff]
  tauto

/-- Claim C4 (counterexample): with `blob_swap` unset, `blob_enclosed` true
and `blob_size = 5 >` `blob_max_size = 3`, `EndScan` leaves `blob_swap =
kElStone`, not `kElDiamond`: the second `if` of `EndScan` is not guarded by
`else` and overwrites the diamond assignment. -/
theorem c4_counterexample_enclosed_oversize :
    lsC4.blob_swap = kNullElementCode ∧ lsC4.blob_enclosed = true ∧
    lsC4.blob_size > 3 ∧
    (EndScan 3 lsC4).blob_swap = kElStone ∧ kElStone ≠ kElDiamond := by
  refine ⟨by decide, by decide, by decide, by decide, by decide⟩

/-- Claim C4 (status `corrected`, amended): when `blob_swap` is unset,
`EndScan` sets it to `kElStone` whenever `blob_size > blob_max_size`
(regardless of `blob_enclosed`), to `kElDiamond` when the blob is enclosed
and not over the cap, and leaves it unset otherwise. -/
theorem c4_end_scan_blob_swap (blob_max_size : Nat) (ls : LocalState)
    (h : ls.blob_swap = kNullElementCode) :
    (EndScan blob_max_size ls).blob_swap =
      if blob_max_size < ls.blob_size then kElStone
      else if ls.blob_enclosed then kElDiamond
      else kNullElementCode := by
  simp only [EndScan, if_pos h]
  split_ifs <;> simp_all

/-- Witness for `c4_end_scan_blob_swap` at `blob_max_size = 3`, `lsC4`. -/
theorem c4_end_scan_blob_swap_witness :
    (EndScan 3 lsC4).blob_swap =
      if 3 < lsC4.blob_size then kElStone
      else if lsC4.blob_enclosed then kElDiamond
      else kNullElementCode :=
  c4_end_scan_blob_swap 3 lsC4 (by decide)

/-- Claim C5 (status `confirmed`): `UpdateStoneFalling` follows exactly the
spec's case order — empty below → move down; explodable below → explode with
the mapped explosion element; magic wall on/dormant below → magic
pass-through with the conversion table; nut below → that cell becomes a
diamond with its id refreshed; roll left/right; else come to rest — and the
duplicated second `kElNut` test (the "falling on a bomb, explode" branch) is
never taken: on every state the source function agrees with the spec's rule,
which omits that branch. -/
theorem c5_stone_falling_dead_nut_branch (zrbht : Int → Nat) (g : GameState)
    (index : Int) :
    UpdateStoneFalling zrbht g index = UpdateStoneFallingSpec zrbht g index := by
  unfold UpdateStoneFalling UpdateStoneFallingSpec
  split_ifs <;> rfl

/-- Claim C6 (counterexample): one `apply_action` on the 1×2 board
`[agent, empty]` moves the agent right.  The scan mutates *both* cells — cell
0 goes from `kElAgent` to `kElEmpty` — yet at the end of the scan
`has_updated = [false, true]`: the vacated source cell of `MoveItem` is
mutated but never marked. -/
theorem c6_counterexample_source_cell_unmarked :
    stateC6.board.grid = [kElAgent, kElEmpty] ∧
    (apply_action zZero stateC6 kRight).board.grid = [kElEmpty, kElAgent] ∧
    (apply_action zZero stateC6 kRight).board.has_updated = [false, true] := by
  refine ⟨by decide, by decide, by decide⟩

/-- Claim C6 (status `corrected`, amended): `StartScan` clears every
`has_updated` flag, and `SetItem`/`MoveItem` mark exactly their destination
cell — but `MoveItem` overwrites its *source* cell with `kElEmpty` without
marking it, so a scan can leave a mutated cell unmarked. -/
theorem c6_has_updated_marks_destinations_only (zrbht : Int → Nat)
    (g : GameState) (index : Int) (action : Nat) (h0 : 0 ≤ index)
    (hlen : index.toNat < g.board.grid.length)
    (hne : IndexFromAction g.board.cols index action ≠ index) :
    (StartScan g).board.has_updated =
      List.replicate (g.board.rows * g.board.cols) false ∧
    (SetItem zrbht g index kElEmpty (-1) action).board.has_updated =
      lset g.board.has_updated (IndexFromAction g.board.cols index action) true ∧
    (MoveItem zrbht g index action).board.has_updated =
      lset g.board.has_updated (IndexFromAction g.board.cols index action) true ∧
    (MoveItem zrbht g index action).board.item index = kElEmpty ∧
    lgetD (MoveItem zrbht g index action).board.has_updated index false =
      lgetD g.board.has_updated index false := by
  refine ⟨rfl, rfl, rfl, ?_, ?_⟩
  · show lgetD (lset (lset g.board.grid _ _) index kElEmpty) index kNullElementCode
      = kElEmpty
    exact lgetD_lset_self _ _ _ _ h0 (by rwa [lset_length])
  · exact lgetD_lset_ne _ _ _ _ _ hne

/-- Witness for `c6_has_updated_marks_destinations_only` at the `tokensC6`
board, `index = 0`, `action = kRight`. -/
theorem c6_has_updated_witness :
    (StartScan stateC6).board.has_updated =
      List.replicate (stateC6.board.rows * stateC6.board.cols) false ∧
    (SetItem zZero stateC6 0 kElEmpty (-1) kRight).board.has_updated =
      lset stateC6.board.has_updated (IndexFromAction stateC6.board.cols 0 kRight) true ∧
    (MoveItem zZero stateC6 0 kRight).board.has_updated =
      lset stateC6.board.has_updated (IndexFromAction stateC6.board.cols 0 kRight) true ∧
    (MoveItem zZero stateC6 0 kRight).board.item 0 = kElEmpty ∧
    lgetD (MoveItem zZero stateC6 0 kRight).board.has_updated 0 false =
      lgetD stateC6.board.has_updated 0 false :=
  c6_has_updated_marks_destinations_only zZero stateC6 0 kRight (by decide)
    (by decide) (by decide)

/-- Claim C8 (status `confirmed`): the incrementally maintained Zobrist hash
always equals the hash recomputed from scratch.  `reset` establishes
`zorb_hash = ⨁_i zrbht[cell(i)·N + i]` (`N = cols·rows`), and every board
mutation — all grid writes go through `SetItem` and `MoveItem` — XORs the old
cell's entry out and the new one in, so every state reached from `reset` by a
sequence of in-range mutations (the mutations `apply_action` performs)
satisfies the invariant, for every Zobrist table and board. -/
theorem c8_zobrist_hash_consistency (zrbht : Int → Nat)
    (params : SharedStateInfo) (tokens : List Int) (s : GameState)
    (hwf : BoardWF (reset zrbht params tokens).board)
    (hreach : MutSeq zrbht (reset zrbht params tokens) s) :
    s.board.zorb_hash = hashFromScratch zrbht s.board := by
  have main : BoardWF s.board ∧
      s.board.zorb_hash = hashFromScratch zrbht s.board := by
    induction hreach with
    | refl => exact ⟨hwf, reset_hash_from_scratch zrbht params tokens⟩
    | step hprev hvalid ih =>
      obtain ⟨ihwf, ihinv⟩ := ih
      refine ⟨applyOp_wf _ _ _ ihwf, ?_⟩
      rename_i g op
      cases op with
      | set index element action =>
        exact setItem_hash_preserved zrbht g index element (-1) action ihwf ihinv
          hvalid.1 hvalid.2
      | move index action =>
        exact moveItem_hash_preserved zrbht g index action ihwf ihinv
          hvalid.1 hvalid.2.1 hvalid.2.2.1 hvalid.2.2.2
  exact main.2

/-- Witness for `c8_zobrist_hash_consistency`: the `tokensC6` board after the
in-range mutation `MoveItem 0 kRight`. -/
theorem c8_zobrist_hash_consistency_witness :
    (applyOp zZero stateC6 (BoardOp.move 0 kRight)).board.zorb_hash =
      hashFromScratch zZero (applyOp zZero stateC6 (BoardOp.move 0 kRight)).board :=
  c8_zobrist_hash_consistency zZero sharedDefault tokensC6 _ (by exact rfl)
    (MutSeq.step MutSeq.refl
      (by exact ⟨by decide, by decide, by decide, by decide⟩))

/-- Claim C10 (counterexample): the reset state of the board
`"1|2|0|0|agent|exit-open"` — `max_steps = 0`, the interface's
timeout-disabled setting — is reachable (zero actions), the agent's `Right`
action takes the walk-into-open-exit branch of `UpdateAgent`, and
`board.max_steps = 0`: the terminal-bonus division
`steps_remaining * 100 / max_steps` there divides by zero. -/
theorem c10_counterexample_divide_by_zero :
    Reachable zZero stateC10 stateC10 ∧
    walksIntoOpenExit stateC10 kRight = true ∧
    stateC10.board.max_steps = 0 :=
  ⟨Reachable.refl, by decide, by decide⟩

theorem reachable_max_steps (zrbht : Int → Nat) (g0 s : GameState)
    (h : Reachable zrbht g0 s) : s.board.max_steps = g0.board.max_steps := by
  induction h with
  | refl => rfl
  | step hprev hlt ih => rw [maxSteps_apply_action]; exact ih

/-- Claim C10 (status `corrected`, amended): the divisor of the
terminal-bonus division is `board.max_steps`, which no `apply_action` ever
writes — every reachable state keeps the parsed board's `max_steps`, so the
division is by a nonzero value whenever the configured `max_steps` is nonzero
(in particular for the default board string's `-1`); with the interface's
`max_steps = 0` (timeout disabled) the walk-into-open-exit branch divides by
zero (see the counterexample). -/
theorem c10_exit_division_max_steps (zrbht : Int → Nat)
    (params : SharedStateInfo) (tokens : List Int) (s : GameState)
    (hreach : Reachable zrbht (reset zrbht params tokens) s) :
    s.board.max_steps = (reset zrbht params tokens).board.max_steps ∧
    ((reset zrbht params tokens).board.max_steps ≠ 0 →
      s.board.max_steps ≠ 0) := by
  have h := reachable_max_steps zrbht _ s hreach
  exact ⟨h, fun hne => h ▸ hne⟩

/-- Witness for `c10_exit_division_max_steps`: the default board
(`max_steps = -1`) after one `Right` action. -/
theorem c10_exit_division_max_steps_witness :
    (apply_action zZero stateDefault kRight).board.max_steps =
      stateDefault.board.max_steps ∧
    (stateDefault.board.max_steps ≠ 0 →
      (apply_action zZero stateDefault kRight).board.max_steps ≠ 0) :=
  c10_exit_division_max_steps zZero sharedDefault tokensDefault _
    (Reachable.step Reachable.refl (by decide))

end StonesNGems

namespace TSQueue

/-- Claim C7 (status `code_bug`): `queue.h`'s own comment says
`BlockNewValues` "causes pushing new values to fail", and the spec says a
push after shutdown returns "refused" — but `Push` never reads
`block_new_values_`: evaluated after `BlockNewValues()`, a `Push` onto a
non-full queue enqueues the value and returns `true`.  The second half of the
claim does hold: `Pop` on an empty blocked queue returns `none` instead of
waiting. -/
theorem c7_push_ignores_block_new_values :
    push (blockNewValues (⟨false, 4, []⟩ : ThreadedQueue Nat)) 7 =
      some (true, ⟨true, 4, [7]⟩) ∧
    pop (blockNewValues (⟨false, 4, []⟩ : ThreadedQueue Nat)) =
      some (none, ⟨true, 4, []⟩) := by
  refine ⟨by decide, by decide⟩

end TSQueue

namespace PhsSearch

/-- Claim C9 (status `confirmed`): for a fixed predicted heuristic `h` and a
fixed depth `g > 0`, `phs_cost` is strictly decreasing in the accumulated
log-policy `p`: if `p1 < p2` then the node with `p2` has strictly smaller
cost (more probable paths get lower cost).  The `double` arithmetic of the
source is modelled over `ℝ`. -/
theorem c9_phs_cost_strict_decreasing_in_p (h g p1 p2 : ℝ)
    (hg : 0 < g) (hp : p1 < p2) :
    phs_cost ⟨p2, g⟩ h < phs_cost ⟨p1, g⟩ h := by
  unfold phs_cost
  apply sub_lt_sub_left
  apply mul_lt_mul_of_pos_right hp
  have hh : (0 : ℝ) ≤ if h < 0 then 0 else h := by
    split
    · exact le_refl 0
    · exact le_of_not_lt (by assumption)
  have : (0 : ℝ) ≤ (if h < 0 then 0 else h) / g := div_nonneg hh (le_of_lt hg)
  linarith

/-- Witness for `c9_phs_cost_strict_decreasing_in_p` at `h = 1`, `g = 1`,
`p1 = -1`, `p2 = 0`. -/
theorem c9_phs_cost_witness : phs_cost ⟨0, 1⟩ 1 < phs_cost ⟨-1, 1⟩ 1 :=
  c9_phs_cost_strict_decreasing_in_p 1 1 (-1) 0 (by norm_num) (by norm_num)

open StonesNGems in
/-- Claim C3 (counterexample): on the `tokensC3` board the agent is boxed in,
so all five actions give equal (but non-root) child states while a stone
falls in the other column.  All five child nodes pass the closed-set check at
the same flush (none of their states has been expanded yet) and enter the
open queue together; the second and third pop-and-expand steps of the run
then operate on nodes whose states are equal (`RNDGameState::operator==`),
refuting the claim that no two expansions share an equal state. -/
theorem c3_counterexample_double_expansion :
    (searchTrace gameSearchModel rootC3 3).1.length = 3 ∧
    gameStateEq ((searchTrace gameSearchModel rootC3 3).1.getD 1 rootC3)
      ((searchTrace gameSearchModel rootC3 3).1.getD 2 rootC3) = true ∧
    gameStateEq ((searchTrace gameSearchModel rootC3 3).1.getD 0 rootC3)
      ((searchTrace gameSearchModel rootC3 3).1.getD 1 rootC3) = false := by
  refine ⟨by decide, by decide, by decide⟩

/-- Claim C3 (status `corrected`, amended): the closed-set deduplication acts
only at batch-flush time — every node that `flushChildren` pushes into the
open queue has a state that is *not* equal (under the search's state
equality) to any already-expanded state; a node whose state was expanded
before the flush is dropped there and never expanded.  (Nodes with equal
states that all enter the open queue before any of them is expanded are each
expanded: pops do not re-check the closed set.) -/
theorem c3_flush_drops_closed_states {State : Type} (M : SearchModel State)
    (closed : List State) (staged : List (SNode State)) (c : SNode State)
    (hc : c ∈ flushChildren M closed staged) :
    closed.any (fun s => M.stateEq s c.state) = false := by
  unfold flushChildren at hc
  obtain ⟨d, hd, rfl⟩ := List.mem_map.mp hc
  have h := (List.mem_filter.mp hd).2
  simpa using h

/-- Witness for `c3_flush_drops_closed_states`: the flushed node with state
`2` is not equal to the closed state `1`. -/
theorem c3_flush_drops_witness :
    List.any [1] (fun s => natSearchModel.stateEq s flushedNodeNat.state) = false :=
  c3_flush_drops_closed_states natSearchModel [1] [stagedNodeNat] flushedNodeNat
    (by decide)

end PhsSearch
